import Mathlib

/-!
Shallow embedding of the pharmacy backend core: FIFO stock allocation,
deallocation, the sale workflow (pending bills, completion, direct sales,
credit payments) and the bulk-order status machine, together with theorems
settling the specification claims about them.

Conventions of the embedding:
- machine integers and database integer columns become Nat,
- request quantities parsed by int(...) become Int (they may be negative),
- monetary values (Python float / Decimal) become Rat,
- dates and timestamps become Nat (days / seconds since an epoch),
- nullable columns become Option,
- a database row set becomes a List of structures,
- an endpoint that can write is a function returning (response, new state);
  an exception inside transaction.atomic rolls the state back, so the
  wrapper returns the original state on error.
-/

namespace Pharma

/-- Inventory batch row (the InventoryItem model): one receipt of stock for
one product at one branch, as used by the POS and inventory views. -/
structure Batch where
  id : Nat
  productId : Nat
  organizationId : Nat
  branchId : Nat
  quantity : Nat
  costPrice : Rat
  sellingPrice : Option Rat
  batchNumber : String
  expiryDate : Option Nat
  createdAt : Nat
  isActive : Bool
  location : String
deriving Repr, DecidableEq

/-- Total quantity over a list of batches, as computed by
sum(item.quantity for item in inventory_items). -/
def sumQuantities (bs : List Batch) : Nat :=
  (bs.map Batch.quantity).sum

/-- Unit price of a batch: selling price if set and nonzero, else cost
price, following the Python truthiness of
(item.selling_price or item.cost_price). -/
def unitPrice (b : Batch) : Rat :=
  match b.sellingPrice with
  | none => b.costPrice
  | some p => if p = 0 then b.costPrice else p

/-- Modelled from the spec: strict comparison of nullable expiry dates with
NULLs ordered last, matching the documented ordering of
order_by(expiry_date, created_at); the database backend that fixes the
NULL placement is not part of the sources. -/
def expiryKeyLT : Option Nat → Option Nat → Bool
  | some d1, some d2 => d1 < d2
  | some _, none => true
  | none, _ => false

/-- Modelled from the spec: non-strict variant of the expiry-date
comparison with NULLs ordered last. -/
def expiryKeyLE : Option Nat → Option Nat → Bool
  | some d1, some d2 => d1 ≤ d2
  | some _, none => true
  | none, none => true
  | none, some _ => false

/-- Ordering used by order_by(expiry_date, created_at): ascending expiry
date first, creation timestamp as the tie-break. -/
def posBatchLe (b1 b2 : Batch) : Prop :=
  expiryKeyLT b1.expiryDate b2.expiryDate = true ∨
    (b1.expiryDate = b2.expiryDate ∧ b1.createdAt ≤ b2.createdAt)

instance : DecidableRel posBatchLe := fun b1 b2 => by
  unfold posBatchLe; infer_instance

/-- Ordering used by order_by(created_at) in allocate_stock_fifo. -/
def createdLe (b1 b2 : Batch) : Prop :=
  b1.createdAt ≤ b2.createdAt

instance : DecidableRel createdLe := fun b1 b2 => by
  unfold createdLe; infer_instance

/-- Ordering used by order_by(-expiry_date) in deallocate_stock:
descending expiry date. -/
def deallocBatchLe (b1 b2 : Batch) : Prop :=
  expiryKeyLE b2.expiryDate b1.expiryDate = true

instance : DecidableRel deallocBatchLe := fun b1 b2 => by
  unfold deallocBatchLe; infer_instance

/-- Row filter of the POS allocate_stock query: product, branch,
quantity strictly positive, active. -/
def posEligible (medicineId branchId : Nat) (b : Batch) : Bool :=
  b.productId == medicineId && b.branchId == branchId &&
    decide (0 < b.quantity) && b.isActive

/-- One allocation dict built by allocate_stock; building it calls
isoformat() on the expiry date, so a row can only produce a line when its
expiry date is present. -/
structure PosAllocationLine where
  inventoryItemId : Nat
  batchNumber : String
  expiryDate : Nat
  allocatedQuantity : Nat
  sellingPrice : Rat
  availableQuantity : Nat
deriving Repr, DecidableEq

/-- Allocation loop of allocate_stock: walk the ordered batches taking
min(item.quantity, remaining) from each until remaining is zero; returns
none when a walked row has a NULL expiry date, because
item.expiry_date.isoformat() raises AttributeError there. -/
def posAllocationLines : List Batch → Nat → Option (List PosAllocationLine)
  | [], _ => some []
  | b :: rest, remaining =>
    if remaining = 0 then some []
    else
      match b.expiryDate with
      | none => none
      | some d =>
        let a := min b.quantity remaining
        match posAllocationLines rest (remaining - a) with
        | none => none
        | some ls =>
          some ({ inventoryItemId := b.id, batchNumber := b.batchNumber,
                  expiryDate := d, allocatedQuantity := a,
                  sellingPrice := unitPrice b,
                  availableQuantity := b.quantity } :: ls)

/-- Response of the POS allocate_stock endpoint. -/
inductive AllocateStockResult where
  | badRequest
  | noStock
  | insufficientStock (available requested : Nat)
  | ok (allocations : List PosAllocationLine) (totalAllocated medicineId : Nat)
  | internalError
deriving Repr, DecidableEq

/-- POS allocate_stock endpoint (pos/views.py): validates the request,
filters and orders eligible batches by (expiry_date, created_at), rejects
an empty batch list and insufficient totals, then walks the list greedily.
Any exception, in particular isoformat() on a NULL expiry date, is caught
and surfaced as a 500 response. The call performs no writes. -/
def posEligibleSorted (batches : List Batch) (medicineId branchId : Nat) :
    List Batch :=
  List.insertionSort posBatchLe (batches.filter (posEligible medicineId branchId))

def allocate_stock (batches : List Batch) (medicineId : Nat) (quantity : Int)
    (branchId : Nat) : AllocateStockResult :=
  if medicineId = 0 ∨ quantity ≤ 0 then .badRequest
  else
    let q := quantity.toNat
    let items := posEligibleSorted batches medicineId branchId
    if items.isEmpty then .noStock
    else
      let total := sumQuantities items
      if total < q then .insufficientStock total q
      else
        match posAllocationLines items q with
        | none => .internalError
        | some lines => .ok lines q medicineId

/-- Row filter of the allocate_stock_fifo query: product, organization,
target branch, quantity strictly positive. Unlike the POS endpoint it does
not require is_active. -/
def fifoEligible (medicineId organizationId : Nat) (targetBranchId : Option Nat)
    (b : Batch) : Bool :=
  b.productId == medicineId && b.organizationId == organizationId &&
    some b.branchId == targetBranchId && decide (0 < b.quantity)

/-- One allocation dict built by allocate_stock_fifo; its expiry date is
optional (guarded strftime), so NULL expiry dates do not raise. -/
structure FifoAllocationLine where
  batchId : Nat
  batchNumber : String
  allocatedQuantity : Nat
  sellingPrice : Rat
  expiryDate : Option Nat
  location : String
  remainingInBatch : Nat
deriving Repr, DecidableEq

/-- Allocation loop of allocate_stock_fifo over the created_at-ordered
batches. -/
def fifoAllocationLines : List Batch → Nat → List FifoAllocationLine
  | [], _ => []
  | b :: rest, remaining =>
    if remaining = 0 then []
    else
      let a := min b.quantity remaining
      { batchId := b.id, batchNumber := b.batchNumber,
        allocatedQuantity := a, sellingPrice := unitPrice b,
        expiryDate := b.expiryDate, location := b.location,
        remainingInBatch := b.quantity - a } :: fifoAllocationLines rest (remaining - a)

/-- Response of the inventory allocate_stock_fifo endpoint. -/
inductive AllocateStockFifoResult where
  | badRequest
  | noStock
  | insufficientStock (available requested : Nat)
  | ok (medicineId requestedQuantity : Nat)
      (allocations : List FifoAllocationLine) (totalAmount : Rat)
deriving Repr, DecidableEq

/-- Resolution of the acting organization in allocate_stock_fifo:
getattr(user, organization_id, None) with the literal fallback to 3 when
falsy. -/
def resolveOrganization : Option Nat → Nat
  | none => 3
  | some 0 => 3
  | some o => o

/-- Resolution of the target branch in allocate_stock_fifo:
branch_id or user_branch_id under Python truthiness. -/
def resolveBranch : Option Nat → Option Nat → Option Nat
  | none, ub => ub
  | some 0, ub => ub
  | some b, _ => some b

def fifoEligibleSorted (batches : List Batch) (medicineId organizationId : Nat)
    (targetBranchId : Option Nat) : List Batch :=
  List.insertionSort createdLe
    (batches.filter (fifoEligible medicineId organizationId targetBranchId))

/-- Inventory allocate_stock_fifo endpoint (stock_entry_views.py): filters
batches of the product for the resolved organization and branch with
positive quantity, orders them by created_at only, and walks that order
greedily. The call performs no writes. -/
def allocate_stock_fifo (batches : List Batch) (medicineId : Nat)
    (quantity : Int) (branchId userOrgId userBranchId : Option Nat) :
    AllocateStockFifoResult :=
  let organizationId := resolveOrganization userOrgId
  let targetBranchId := resolveBranch branchId userBranchId
  if medicineId = 0 ∨ quantity ≤ 0 then .badRequest
  else
    let q := quantity.toNat
    let available := fifoEligibleSorted batches medicineId organizationId targetBranchId
    if available.isEmpty then .noStock
    else
      let total := sumQuantities available
      if total < q then .insufficientStock total q
      else
        let lines := fifoAllocationLines available q
        .ok medicineId q lines
          ((lines.map (fun l => (l.allocatedQuantity : Rat) * l.sellingPrice)).sum)

/-- State-passing form of the POS allocate_stock endpoint: the view body
contains no write to any row, so the database state after the call is the
state before it, on success and on failure alike. -/
def allocate_stockStep (batches : List Batch) (medicineId : Nat)
    (quantity : Int) (branchId : Nat) : AllocateStockResult × List Batch :=
  (allocate_stock batches medicineId quantity branchId, batches)

/-- State-passing form of allocate_stock_fifo: the view body contains no
write to any row. -/
def allocate_stock_fifoStep (batches : List Batch) (medicineId : Nat)
    (quantity : Int) (branchId userOrgId userBranchId : Option Nat) :
    AllocateStockFifoResult × List Batch :=
  (allocate_stock_fifo batches medicineId quantity branchId userOrgId userBranchId,
   batches)

/-! Claim C1: ordering of the allocation walk. -/

/-- Batch expiring late (day 300) but created first (day 10). -/
def fifoCexLate : Batch :=
  { id := 1, productId := 7, organizationId := 1, branchId := 2, quantity := 3,
    costPrice := 10, sellingPrice := some 12, batchNumber := "LATE",
    expiryDate := some 300, createdAt := 10, isActive := true, location := "" }

/-- Batch expiring soon (day 100) but created second (day 20). -/
def fifoCexSoon : Batch :=
  { id := 2, productId := 7, organizationId := 1, branchId := 2, quantity := 5,
    costPrice := 10, sellingPrice := some 12, batchNumber := "SOON",
    expiryDate := some 100, createdAt := 20, isActive := true, location := "" }

/-- C1 counterexample: the inventory allocate_stock_fifo endpoint orders
batches by created_at only, not by expiry date. With a soon-expiring batch
(day 100, 5 units on hand) and a late-expiring batch (day 300) that was
created earlier, a request for 3 units is served entirely from the
late-expiring batch, contradicting the claimed soonest-to-expire-first
order, under which all 3 units would come from the day-100 batch. -/
theorem allocate_stock_fifo_created_order_cex :
    allocate_stock_fifo [fifoCexLate, fifoCexSoon] 7 3 (some 2) (some 1) none =
      .ok 7 3 [{ batchId := 1, batchNumber := "LATE", allocatedQuantity := 3,
                 sellingPrice := 12, expiryDate := some 300, location := "",
                 remainingInBatch := 0 }] 36 ∧
    fifoCexLate.expiryDate = some 300 ∧ fifoCexSoon.expiryDate = some 100 ∧
    3 ≤ fifoCexSoon.quantity := by
  refine ⟨?_, rfl, rfl, by decide⟩
  norm_num [allocate_stock_fifo, fifoEligibleSorted, fifoEligible,
    resolveOrganization, resolveBranch, fifoAllocationLines, sumQuantities,
    unitPrice, fifoCexLate, fifoCexSoon, List.insertionSort,
    List.orderedInsert, createdLe, Int.toNat_ofNat]
  decide

/-- C1 (amended): the POS allocate_stock endpoint walks eligible batches in
ascending expiry order (creation timestamp as tie-break), taking
min(batch.quantity, remaining) from each until remaining is zero: with
three eligible batches of expiries E1 < E2 < E3 and positive quantities,
allocating Q1 + 1 takes all Q1 units from batch 1, exactly 1 unit from
batch 2, and nothing from batch 3. -/
theorem allocate_stock_expiry_fifo_scenario
    (b1 b2 b3 : Batch) (pid br e1 e2 e3 : Nat)
    (hpid : pid ≠ 0)
    (hp1 : b1.productId = pid) (hb1 : b1.branchId = br)
    (ha1 : b1.isActive = true) (hq1 : 0 < b1.quantity)
    (hp2 : b2.productId = pid) (hb2 : b2.branchId = br)
    (ha2 : b2.isActive = true) (hq2 : 0 < b2.quantity)
    (hp3 : b3.productId = pid) (hb3 : b3.branchId = br)
    (ha3 : b3.isActive = true) (hq3 : 0 < b3.quantity)
    (he1 : b1.expiryDate = some e1) (he2 : b2.expiryDate = some e2)
    (he3 : b3.expiryDate = some e3)
    (h12 : e1 < e2) (h23 : e2 < e3) :
    allocate_stock [b1, b2, b3] pid ((b1.quantity + 1 : Nat) : Int) br =
      .ok [{ inventoryItemId := b1.id, batchNumber := b1.batchNumber,
             expiryDate := e1, allocatedQuantity := b1.quantity,
             sellingPrice := unitPrice b1, availableQuantity := b1.quantity },
           { inventoryItemId := b2.id, batchNumber := b2.batchNumber,
             expiryDate := e2, allocatedQuantity := 1,
             sellingPrice := unitPrice b2, availableQuantity := b2.quantity }]
        (b1.quantity + 1) pid := by
  have l12 : posBatchLe b1 b2 := Or.inl (by simp [expiryKeyLT, he1, he2, h12])
  have l13 : posBatchLe b1 b3 :=
    Or.inl (by simp [expiryKeyLT, he1, he3, Nat.lt_trans h12 h23])
  have l23 : posBatchLe b2 b3 := Or.inl (by simp [expiryKeyLT, he2, he3, h23])
  have hsorted : List.Sorted posBatchLe [b1, b2, b3] := by
    refine List.Pairwise.cons ?_ (List.Pairwise.cons ?_ (List.pairwise_singleton _ _))
    · intro b hb
      simp only [List.mem_cons, List.not_mem_nil, or_false,
        List.mem_singleton] at hb
      rcases hb with rfl | rfl
      · exact l12
      · exact l13
    · intro b hb
      simp only [List.mem_singleton, List.not_mem_nil, or_false,
        List.mem_cons] at hb
      subst hb
      exact l23
  have hfilter : List.filter (posEligible pid br) [b1, b2, b3] = [b1, b2, b3] := by
    simp [posEligible, hp1, hb1, ha1, hq1, hp2, hb2, ha2, hq2, hp3, hb3, ha3, hq3]
  have hsort : posEligibleSorted [b1, b2, b3] pid br = [b1, b2, b3] := by
    unfold posEligibleSorted
    rw [hfilter]
    exact List.Sorted.insertionSort_eq hsorted
  have hcond : ¬(pid = 0 ∨ ((b1.quantity + 1 : Nat) : Int) ≤ 0) := by
    rintro (h | h)
    · exact hpid h
    · omega
  have hlines : posAllocationLines [b1, b2, b3] (b1.quantity + 1) =
      some [{ inventoryItemId := b1.id, batchNumber := b1.batchNumber,
              expiryDate := e1, allocatedQuantity := b1.quantity,
              sellingPrice := unitPrice b1, availableQuantity := b1.quantity },
            { inventoryItemId := b2.id, batchNumber := b2.batchNumber,
              expiryDate := e2, allocatedQuantity := 1,
              sellingPrice := unitPrice b2, availableQuantity := b2.quantity }] := by
    rw [posAllocationLines, if_neg (Nat.succ_ne_zero _), he1]
    have hm1 : min b1.quantity (b1.quantity + 1) = b1.quantity := by omega
    have hr1 : b1.quantity + 1 - b1.quantity = 1 := by omega
    simp only [hm1, hr1]
    rw [posAllocationLines, if_neg Nat.one_ne_zero, he2]
    have hm2 : min b2.quantity 1 = 1 := by omega
    simp only [hm2, Nat.sub_self]
    rw [posAllocationLines, if_pos rfl]
  simp only [allocate_stock, hsort, if_neg hcond, Int.toNat_natCast,
    List.isEmpty_cons, ite_false, Bool.false_eq_true]
  have htotal : ¬ sumQuantities [b1, b2, b3] < b1.quantity + 1 := by
    simp only [sumQuantities, List.map_cons, List.map_nil, List.sum_cons,
      List.sum_nil]
    omega
  rw [if_neg htotal, hlines]

/-- Concrete batch with expiry day 100 and 2 units. -/
def scenBatch1 : Batch :=
  { id := 11, productId := 7, organizationId := 1, branchId := 2, quantity := 2,
    costPrice := 10, sellingPrice := some 15, batchNumber := "B1",
    expiryDate := some 100, createdAt := 1, isActive := true, location := "" }

/-- Concrete batch with expiry day 200 and 3 units. -/
def scenBatch2 : Batch :=
  { id := 12, productId := 7, organizationId := 1, branchId := 2, quantity := 3,
    costPrice := 10, sellingPrice := none, batchNumber := "B2",
    expiryDate := some 200, createdAt := 2, isActive := true, location := "" }

/-- Concrete batch with expiry day 300 and 4 units. -/
def scenBatch3 : Batch :=
  { id := 13, productId := 7, organizationId := 1, branchId := 2, quantity := 4,
    costPrice := 10, sellingPrice := some 20, batchNumber := "B3",
    expiryDate := some 300, createdAt := 3, isActive := true, location := "" }

/-- C1 witness: the amended scenario applied to three concrete batches with
quantities 2, 3, 4: allocating 3 units takes 2 from the first batch and 1
from the second. -/
theorem allocate_stock_expiry_fifo_scenario_witness :
    allocate_stock [scenBatch1, scenBatch2, scenBatch3] 7
        ((scenBatch1.quantity + 1 : Nat) : Int) 2 =
      .ok [{ inventoryItemId := scenBatch1.id, batchNumber := scenBatch1.batchNumber,
             expiryDate := 100, allocatedQuantity := scenBatch1.quantity,
             sellingPrice := unitPrice scenBatch1,
             availableQuantity := scenBatch1.quantity },
           { inventoryItemId := scenBatch2.id, batchNumber := scenBatch2.batchNumber,
             expiryDate := 200, allocatedQuantity := 1,
             sellingPrice := unitPrice scenBatch2,
             availableQuantity := scenBatch2.quantity }]
        (scenBatch1.quantity + 1) 7 :=
  allocate_stock_expiry_fifo_scenario scenBatch1 scenBatch2 scenBatch3 7 2
    100 200 300 (by decide) rfl rfl rfl (by decide) rfl rfl rfl (by decide)
    rfl rfl rfl (by decide) rfl rfl rfl (by decide) (by decide)

/-! Claim C2: rejection of requests exceeding the available total. -/

/-- C2 counterexample: with no eligible batch at all for the requested
medicine, any positive request exceeds the available total (0), yet the
endpoint answers with the distinct noStock error instead of the
insufficient-stock error carrying available and requested quantities. -/
theorem allocate_stock_no_eligible_cex :
    allocate_stock [fifoCexLate] 99 5 2 = .noStock ∧
    AllocateStockResult.noStock ≠ .insufficientStock 0 5 := by
  decide

/-- C2 (amended): whenever at least one eligible batch exists and the
requested quantity exceeds the total over all eligible batches, both
allocation endpoints fail with an insufficient-stock error carrying the
available total and the requested quantity; when no eligible batch exists
they fail with a distinct no-stock error. In every case the call leaves
every batch row unchanged. -/
theorem allocate_insufficient_rejected (batches : List Batch) (pid : Nat)
    (q : Int) (br : Nat) (borg bbr ubr : Option Nat)
    (hpid : pid ≠ 0) (hq : 0 < q) :
    (posEligibleSorted batches pid br ≠ [] →
      sumQuantities (posEligibleSorted batches pid br) < q.toNat →
      allocate_stockStep batches pid q br =
        (.insufficientStock (sumQuantities (posEligibleSorted batches pid br))
          q.toNat, batches)) ∧
    (posEligibleSorted batches pid br = [] →
      allocate_stockStep batches pid q br = (.noStock, batches)) ∧
    (fifoEligibleSorted batches pid (resolveOrganization borg)
        (resolveBranch bbr ubr) ≠ [] →
      sumQuantities (fifoEligibleSorted batches pid (resolveOrganization borg)
        (resolveBranch bbr ubr)) < q.toNat →
      allocate_stock_fifoStep batches pid q bbr borg ubr =
        (.insufficientStock
          (sumQuantities (fifoEligibleSorted batches pid
            (resolveOrganization borg) (resolveBranch bbr ubr))) q.toNat,
         batches)) ∧
    (fifoEligibleSorted batches pid (resolveOrganization borg)
        (resolveBranch bbr ubr) = [] →
      allocate_stock_fifoStep batches pid q bbr borg ubr = (.noStock, batches)) := by
  have hcond : ¬(pid = 0 ∨ q ≤ 0) := by
    rintro (h | h)
    · exact hpid h
    · omega
  refine ⟨?_, ?_, ?_, ?_⟩
  · intro hne hlt
    simp only [allocate_stockStep, allocate_stock, if_neg hcond]
    rw [if_neg (by simpa [List.isEmpty_iff] using hne), if_pos hlt]
  · intro hemp
    simp only [allocate_stockStep, allocate_stock, if_neg hcond]
    rw [if_pos (by simpa [List.isEmpty_iff] using hemp)]
  · intro hne hlt
    simp only [allocate_stock_fifoStep, allocate_stock_fifo, if_neg hcond]
    rw [if_neg (by simpa [List.isEmpty_iff] using hne), if_pos hlt]
  · intro hemp
    simp only [allocate_stock_fifoStep, allocate_stock_fifo, if_neg hcond]
    rw [if_pos (by simpa [List.isEmpty_iff] using hemp)]

/-- C2 witness: 100 units requested against a single 3-unit batch makes
both endpoints report insufficient stock (available 3, requested 100)
without touching the stored batches, and an empty store reports noStock. -/
theorem allocate_insufficient_rejected_witness :
    allocate_stockStep [fifoCexLate] 7 100 2 =
      (.insufficientStock 3 100, [fifoCexLate]) ∧
    allocate_stock_fifoStep [fifoCexLate] 7 100 (some 2) (some 1) none =
      (.insufficientStock 3 100, [fifoCexLate]) ∧
    allocate_stockStep [] 7 100 2 = (.noStock, []) := by
  refine ⟨?_, ?_, ?_⟩
  · have h := (allocate_insufficient_rejected [fifoCexLate] 7 100 2
      (some 1) (some 2) none (by decide) (by decide)).1
      (by decide) (by decide)
    simpa using h
  · have h := (allocate_insufficient_rejected [fifoCexLate] 7 100 2
      (some 1) (some 2) none (by decide) (by decide)).2.2.1
      (by decide) (by decide)
    simpa using h
  · exact (allocate_insufficient_rejected [] 7 100 2 (some 1) (some 2) none
      (by decide) (by decide)).2.1 (by decide)

/-! Claim C10: NULL expiry dates crash the POS allocator. -/

/-- Walking the ordered batch list crashes (isoformat on None) as soon as
the walk, still needing units, reaches a batch without expiry date. -/
theorem posAllocationLines_none_of_walked_null (pre : List Batch)
    (b : Batch) (post : List Batch) (q : Nat)
    (hb : b.expiryDate = none) (hwalk : sumQuantities pre < q) :
    posAllocationLines (pre ++ b :: post) q = none := by
  induction pre generalizing q with
  | nil =>
    have hq : q ≠ 0 := by
      simp only [sumQuantities, List.map_nil, List.sum_nil] at hwalk
      omega
    rw [List.nil_append, posAllocationLines, if_neg hq, hb]
  | cons p pre ih =>
    have hq : q ≠ 0 := by
      simp only [sumQuantities] at hwalk
      omega
    rw [List.cons_append, posAllocationLines, if_neg hq]
    cases hp : p.expiryDate with
    | none => rfl
    | some d =>
      have hrec : posAllocationLines (pre ++ b :: post) (q - min p.quantity q) =
          none := by
        apply ih
        simp only [sumQuantities, List.map_cons, List.sum_cons] at hwalk ⊢
        omega
      simp only [hrec]

/-- C10: whenever the ordered eligible batches can cover the request but
the greedy walk reaches a batch with a NULL expiry date before remaining
hits zero, the POS allocate_stock endpoint returns the 500 error response
instead of an allocation. -/
theorem allocate_stock_null_expiry_500 (batches : List Batch)
    (pid : Nat) (q : Int) (br : Nat) (pre : List Batch) (b : Batch)
    (post : List Batch)
    (hpid : pid ≠ 0) (hq : 0 < q)
    (hitems : posEligibleSorted batches pid br = pre ++ b :: post)
    (hb : b.expiryDate = none)
    (hwalk : sumQuantities pre < q.toNat)
    (htot : ¬ sumQuantities (posEligibleSorted batches pid br) < q.toNat) :
    allocate_stock batches pid q br = .internalError := by
  have hcond : ¬(pid = 0 ∨ q ≤ 0) := by
    rintro (h | h)
    · exact hpid h
    · omega
  have hne : ¬ (posEligibleSorted batches pid br).isEmpty = true := by
    rw [hitems]
    simp [List.isEmpty_iff]
  simp only [allocate_stock, if_neg hcond]
  rw [if_neg hne, if_neg htot, hitems,
    posAllocationLines_none_of_walked_null pre b post q.toNat hb hwalk]

/-- Batch with a NULL expiry date. -/
def nullExpiryBatch : Batch :=
  { id := 21, productId := 7, organizationId := 1, branchId := 2, quantity := 5,
    costPrice := 10, sellingPrice := some 12, batchNumber := "NOEXP",
    expiryDate := none, createdAt := 10, isActive := true, location := "" }

/-- C10 witness: a 2-unit request against a single active 5-unit batch
without expiry date yields the 500 error even though stock suffices. -/
theorem allocate_stock_null_expiry_500_witness :
    allocate_stock [nullExpiryBatch] 7 2 2 = .internalError :=
  allocate_stock_null_expiry_500 [nullExpiryBatch] 7 2 2 [] nullExpiryBatch []
    (by decide) (by decide) (by decide) rfl (by decide) (by decide)

/-! Deallocation endpoint (stock_entry_views.deallocate_stock). -/

/-- Eligible batches of deallocate_stock, ordered by descending expiry
date (order_by(-expiry_date)); the row filter is the same one the POS
allocator uses. -/
def deallocSorted (batches : List Batch) (medicineId branchId : Nat) :
    List Batch :=
  List.insertionSort deallocBatchLe
    (batches.filter (posEligible medicineId branchId))

/-- Greedy walk shared by the stock-mutating loops: pair each walked batch
id with min(batch.quantity, remaining) until remaining is zero. -/
def greedyAmounts : List Batch → Nat → List (Nat × Nat)
  | [], _ => []
  | b :: rest, remaining =>
    if remaining = 0 then []
    else
      let a := min b.quantity remaining
      (b.id, a) :: greedyAmounts rest (remaining - a)

/-- One response dict of deallocate_stock; available_quantity is read
after the in-loop increment. -/
structure DeallocatedLine where
  inventoryItemId : Nat
  batchNumber : String
  deallocatedQuantity : Nat
  sellingPrice : Rat
  availableQuantity : Nat
deriving Repr, DecidableEq

/-- Response-building walk of deallocate_stock. -/
def deallocWalk : List Batch → Nat → List DeallocatedLine
  | [], _ => []
  | b :: rest, remaining =>
    if remaining = 0 then []
    else
      let a := min b.quantity remaining
      { inventoryItemId := b.id, batchNumber := b.batchNumber,
        deallocatedQuantity := a, sellingPrice := unitPrice b,
        availableQuantity := b.quantity + a } :: deallocWalk rest (remaining - a)

/-- Save of one incremented row: every stored row with the given id gets
the amount added. -/
def incOne (i a : Nat) (bs : List Batch) : List Batch :=
  bs.map (fun b => if b.id = i then { b with quantity := b.quantity + a } else b)

/-- Apply the saved quantity increments (id, amount) to the stored rows. -/
def applyIncrements (bs : List Batch) (ps : List (Nat × Nat)) : List Batch :=
  ps.foldl (fun acc p => incOne p.1 p.2 acc) bs

/-- Response of the deallocate_stock endpoint. -/
inductive DeallocateResult where
  | badRequest
  | noStock
  | ok (deallocatedBatches : List DeallocatedLine)
      (totalDeallocated medicineId : Nat)
deriving Repr, DecidableEq

/-- Inventory deallocate_stock endpoint: walks the eligible batches in
descending expiry order, adding min(item.quantity, remaining) to each one
and saving it, until remaining is zero; the response always reports the
requested quantity as total_deallocated. -/
def deallocate_stock (batches : List Batch) (medicineId : Nat)
    (quantity : Int) (branchId : Nat) : DeallocateResult × List Batch :=
  if medicineId = 0 ∨ quantity ≤ 0 then (.badRequest, batches)
  else
    let items := deallocSorted batches medicineId branchId
    if items.isEmpty then (.noStock, batches)
    else
      let q := quantity.toNat
      (.ok (deallocWalk items q) q medicineId,
       applyIncrements batches (greedyAmounts items q))

/-! Claim C6: what deallocation actually restores. -/

theorem greedyAmounts_snd_sum (bs : List Batch) (q : Nat) :
    ((greedyAmounts bs q).map Prod.snd).sum = min q (sumQuantities bs) := by
  induction bs generalizing q with
  | nil => simp [greedyAmounts, sumQuantities]
  | cons b rest ih =>
    rw [greedyAmounts]
    by_cases hq : q = 0
    · subst hq
      simp
    · rw [if_neg hq]
      simp only [List.map_cons, List.sum_cons, ih, sumQuantities]
      omega

theorem sumQuantities_incOne (i a : Nat) (bs : List Batch) :
    sumQuantities (incOne i a bs) =
      sumQuantities bs + a * bs.countP (fun b => b.id == i) := by
  induction bs with
  | nil => simp [incOne, sumQuantities]
  | cons b rest ih =>
    simp only [incOne, List.map_cons, List.countP_cons] at *
    by_cases h : b.id = i
    · simp only [sumQuantities, List.map_cons, List.sum_cons] at *
      rw [if_pos h, ih]
      simp only [h, beq_self_eq_true, if_pos]
      ring
    · simp only [sumQuantities, List.map_cons, List.sum_cons] at *
      rw [if_neg h, ih]
      have hb : (b.id == i) = false := by
        simpa using h
      simp [hb]
      ring

theorem countP_incOne (i a j : Nat) (bs : List Batch) :
    (incOne i a bs).countP (fun b => b.id == j) =
      bs.countP (fun b => b.id == j) := by
  induction bs with
  | nil => rfl
  | cons b rest ih =>
    simp only [incOne, List.map_cons, List.countP_cons] at *
    rw [ih]
    by_cases h : b.id = i
    · simp [h]
    · simp [h]

theorem applyIncrements_sum (ps : List (Nat × Nat)) (bs : List Batch)
    (h : ∀ p ∈ ps, bs.countP (fun b => b.id == p.1) = 1) :
    sumQuantities (applyIncrements bs ps) =
      sumQuantities bs + (ps.map Prod.snd).sum := by
  induction ps generalizing bs with
  | nil => simp [applyIncrements]
  | cons p rest ih =>
    have hstep : applyIncrements bs (p :: rest) =
        applyIncrements (incOne p.1 p.2 bs) rest := rfl
    rw [hstep, ih]
    · rw [sumQuantities_incOne, h p (List.mem_cons_self p rest)]
      simp only [List.map_cons, List.sum_cons]
      ring
    · intro p' hp'
      rw [countP_incOne]
      exact h p' (List.mem_cons_of_mem _ hp')

theorem greedyAmounts_fst_mem (bs : List Batch) (q : Nat) (p : Nat × Nat)
    (hp : p ∈ greedyAmounts bs q) : p.1 ∈ bs.map Batch.id := by
  induction bs generalizing q with
  | nil => simp [greedyAmounts] at hp
  | cons b rest ih =>
    rw [greedyAmounts] at hp
    by_cases hq : q = 0
    · rw [if_pos hq] at hp
      simp at hp
    · rw [if_neg hq] at hp
      rcases List.mem_cons.mp hp with rfl | hmem
      · simp
      · simpa using Or.inr (ih _ hmem)

theorem countP_id_eq_one (bs : List Batch) (i : Nat)
    (hnodup : (bs.map Batch.id).Nodup) (hmem : i ∈ bs.map Batch.id) :
    bs.countP (fun b => b.id == i) = 1 := by
  have hcount : (bs.map Batch.id).count i = bs.countP (fun b => b.id == i) := by
    rw [List.count, List.countP_map]
    rfl
  have hle : (bs.map Batch.id).count i ≤ 1 :=
    List.nodup_iff_count_le_one.mp hnodup i
  have hge : 1 ≤ (bs.map Batch.id).count i := List.count_pos_iff.mpr hmem
  omega

/-- Batch with 3 units on hand used for the deallocation counterexample. -/
def deallocCexBatch : Batch :=
  { id := 31, productId := 7, organizationId := 1, branchId := 2, quantity := 3,
    costPrice := 10, sellingPrice := some 12, batchNumber := "D1",
    expiryDate := some 100, createdAt := 5, isActive := true, location := "" }

/-- C6 counterexample: deallocating 10 units against a single batch that
currently holds 3 units adds back only min(3, 10) = 3 units, not the
requested 10, even though the response reports total_deallocated = 10. -/
theorem deallocate_stock_partial_restore_cex :
    sumQuantities (deallocate_stock [deallocCexBatch] 7 10 2).2 = 6 ∧
    sumQuantities [deallocCexBatch] = 3 ∧
    (deallocate_stock [deallocCexBatch] 7 10 2).1 =
      .ok [{ inventoryItemId := 31, batchNumber := "D1",
             deallocatedQuantity := 3, sellingPrice := 12,
             availableQuantity := 6 }] 10 7 := by
  refine ⟨by decide, by decide, ?_⟩
  norm_num [deallocate_stock, deallocSorted, posEligible, deallocWalk,
    greedyAmounts, applyIncrements, incOne, sumQuantities, unitPrice,
    deallocCexBatch, List.insertionSort, List.orderedInsert, deallocBatchLe,
    expiryKeyLE, Int.toNat_ofNat]
  decide

/-- C6 (amended): deallocation walks the eligible batches in descending
expiry order, adding min(batch.quantity, remaining) back to each walked
batch; across the store the total quantity added equals
min(q, total quantity currently in eligible batches) — which is the full q
exactly when q does not exceed that current total. -/
theorem deallocate_stock_restores (batches : List Batch) (pid : Nat)
    (q : Int) (br : Nat) (hpid : pid ≠ 0) (hq : 0 < q)
    (hnodup : (batches.map Batch.id).Nodup) :
    sumQuantities (deallocate_stock batches pid q br).2 =
      sumQuantities batches +
        min q.toNat (sumQuantities (deallocSorted batches pid br)) := by
  have hcond : ¬(pid = 0 ∨ q ≤ 0) := by
    rintro (h | h)
    · exact hpid h
    · omega
  rw [deallocate_stock, if_neg hcond]
  by_cases hemp : (deallocSorted batches pid br).isEmpty = true
  · rw [if_pos hemp]
    have : deallocSorted batches pid br = [] := by
      simpa [List.isEmpty_iff] using hemp
    simp [this, sumQuantities]
  · rw [if_neg hemp]
    have hone : ∀ p ∈ greedyAmounts (deallocSorted batches pid br) q.toNat,
        batches.countP (fun b => b.id == p.1) = 1 := by
      intro p hp
      apply countP_id_eq_one batches p.1 hnodup
      have hmem := greedyAmounts_fst_mem _ _ _ hp
      have : ∀ b ∈ deallocSorted batches pid br, b ∈ batches := by
        intro b hb
        have hb1 : b ∈ batches.filter (posEligible pid br) := by
          unfold deallocSorted at hb
          exact (List.perm_insertionSort deallocBatchLe _).subset hb
        exact (List.mem_filter.mp hb1).1
      rcases List.mem_map.mp hmem with ⟨b, hb, hid⟩
      exact List.mem_map.mpr ⟨b, this b hb, hid⟩
    rw [applyIncrements_sum _ _ hone, greedyAmounts_snd_sum]

/-- C6 witness: deallocating 4 units against batches holding 2 and 3 units
restores all 4 units (4 does not exceed the eligible total 5). -/
theorem deallocate_stock_restores_witness :
    sumQuantities (deallocate_stock [scenBatch1, scenBatch2] 7 4 2).2 = 9 := by
  have h := deallocate_stock_restores [scenBatch1, scenBatch2] 7 4 2
    (by decide) (by decide) (by decide)
  have heval : sumQuantities [scenBatch1, scenBatch2] +
      min (Int.toNat 4) (sumQuantities (deallocSorted [scenBatch1, scenBatch2] 7 2)) = 9 := by
    decide
  rw [h, heval]

/-! Sale workflow data model (pos/views.py). -/

/-- One entry of the allocated_batches JSON snapshot stored on a
SaleItem, as produced by the allocators and consumed at completion. -/
structure AllocatedBatch where
  inventoryItemId : Nat
  batchNumber : String
  allocatedQuantity : Nat
deriving Repr, DecidableEq

/-- Total quantity of an allocation snapshot:
sum(batch.allocated_quantity for batch in allocated_batches). -/
def sumAllocated (abs : List AllocatedBatch) : Nat :=
  (abs.map AllocatedBatch.allocatedQuantity).sum

/-- SaleItem row. -/
structure SaleItemRec where
  productId : Nat
  quantity : Nat
  unitPrice : Rat
  batchNumber : String
  allocatedBatches : List AllocatedBatch
deriving Repr, DecidableEq

inductive SaleStatus where
  | pending
  | completed
deriving Repr, DecidableEq

/-- Sale row. Patient rows themselves are not modelled; the patient_name
fallback label stands for every patientless path. -/
structure SaleRec where
  id : Nat
  saleNumber : String
  patientName : String
  patientAge : String
  patientPhone : String
  patientGender : String
  saleType : String
  subtotal : Rat
  taxAmount : Rat
  discountAmount : Rat
  totalAmount : Rat
  amountPaid : Rat
  creditAmount : Rat
  changeAmount : Rat
  paymentMethod : String
  transactionId : String
  organizationId : Nat
  branchId : Option Nat
  status : SaleStatus
  items : List SaleItemRec
deriving Repr, DecidableEq

/-- Payment row. -/
structure PaymentRec where
  saleId : Nat
  amount : Rat
  paymentMethod : String
  referenceNumber : String
deriving Repr, DecidableEq

/-- Database state touched by the POS workflow: inventory rows, sales,
payments, the set of existing product ids, and the id the next created
sale receives. -/
structure DB where
  batches : List Batch
  sales : List SaleRec
  payments : List PaymentRec
  products : List Nat
  nextSaleId : Nat
deriving Repr, DecidableEq

/-- Acting identity/session context attached to every request. -/
structure UserCtx where
  userId : Nat
  organizationId : Nat
  branchId : Option Nat
deriving Repr, DecidableEq

/-- One cart item of a sale request. -/
structure ItemReq where
  medicineId : Nat
  quantity : Nat
  price : Rat
  batch : String
  batchInfo : List AllocatedBatch
deriving Repr, DecidableEq

/-- One entry of the split_payments request list. -/
structure SplitPaymentReq where
  amount : Rat
  method : String
  transactionId : String
deriving Repr, DecidableEq

/-- Business-rule and lookup failures raised (as exceptions) inside the
sale transactions. -/
inductive StockError where
  | saleNotFound
  | productNotFound
  | batchNotFound (inventoryItemId : Nat)
  | allocationMismatch (productId allocated required : Nat)
  | insufficientBatch (batchNumber : String)
  | insufficientTotal (productId : Nat)
deriving Repr, DecidableEq

/-- Printed form of a nullable branch id inside generated sale numbers. -/
def branchText : Option Nat → String
  | none => "None"
  | some b => toString b

/-- Discount-before-tax amounts: tax = (subtotal − discount) · 13 %,
total = discounted subtotal + tax. -/
def pendingAmounts (subtotal discount : Rat) : Rat × Rat :=
  let d := subtotal - discount
  (d * (13 / 100), d + d * (13 / 100))

/-- Build SaleItem rows from the request items; get_object_or_404 on a
missing product raises. -/
def mkSaleItems (products : List Nat) : List ItemReq → Except StockError (List SaleItemRec)
  | [] => .ok []
  | it :: rest =>
    if products.contains it.medicineId then
      match mkSaleItems products rest with
      | .error e => .error e
      | .ok tl =>
        .ok ({ productId := it.medicineId, quantity := it.quantity,
               unitPrice := it.price, batchNumber := it.batch,
               allocatedBatches := it.batchInfo } :: tl)
    else .error .productNotFound

/-- Payment rows created at completion: one row per positive split payment
when split_payments is nonempty, else a single row when paid_amount is
positive. -/
def mkPayments (saleId : Nat) (paidAmount : Rat) (method txid : String)
    (splits : List SplitPaymentReq) : List PaymentRec :=
  if splits ≠ [] then
    (splits.filter (fun sp => decide (0 < sp.amount))).map
      (fun sp => { saleId := saleId, amount := sp.amount,
                   paymentMethod := sp.method, referenceNumber := sp.transactionId })
  else if 0 < paidAmount then
    [{ saleId := saleId, amount := paidAmount, paymentMethod := method,
       referenceNumber := txid }]
  else []

/-! Stock reduction used at sale completion. -/

/-- Save of one decremented row: every stored row with the given id gets
the amount subtracted. -/
def decOne (i a : Nat) (bs : List Batch) : List Batch :=
  bs.map (fun b => if b.id = i then { b with quantity := b.quantity - a } else b)

/-- Apply the saved quantity decrements (id, amount) to the stored rows. -/
def applyDecrements (bs : List Batch) (ps : List (Nat × Nat)) : List Batch :=
  ps.foldl (fun acc p => decOne p.1 p.2 acc) bs

/-- Reduce stock along a stored allocation snapshot: look each referenced
inventory row up (get_object_or_404), check it still holds the allocated
quantity, and decrement it; a missing row or a short row raises. -/
def reduceByBatches : List Batch → List AllocatedBatch → Except StockError (List Batch)
  | bs, [] => .ok bs
  | bs, ab :: rest =>
    match bs.find? (fun b => b.id == ab.inventoryItemId) with
    | none => .error (.batchNotFound ab.inventoryItemId)
    | some b =>
      if ab.allocatedQuantity ≤ b.quantity then
        reduceByBatches (decOne ab.inventoryItemId ab.allocatedQuantity bs) rest
      else .error (.insufficientBatch ab.batchNumber)

/-- Row filter of the in-completion FIFO fallback queries: product, branch
of the sale, positive quantity, active. -/
def fallbackEligible (pid : Nat) (br : Option Nat) (b : Batch) : Bool :=
  b.productId == pid && some b.branchId == br && decide (0 < b.quantity) && b.isActive

/-- FIFO fallback reduction at completion: walk the (expiry_date,
created_at)-ordered eligible batches decrementing min(quantity, remaining)
from each; if the walk ends with remaining units uncovered the loop raises
insufficient-total. The in-loop per-batch check can never fire because each
decrement is capped by the batch quantity. -/
def fifoFallbackReduce (bs : List Batch) (pid : Nat) (br : Option Nat)
    (qty : Nat) : Except StockError (List Batch) :=
  let eligible := List.insertionSort posBatchLe (bs.filter (fallbackEligible pid br))
  let pairs := greedyAmounts eligible qty
  if (pairs.map Prod.snd).sum < qty then .error (.insufficientTotal pid)
  else .ok (applyDecrements bs pairs)

/-- Per-item stock reduction of complete_sale: an absent snapshot falls
back to FIFO; a present snapshot is validated to sum to the item quantity
and a mismatch raises; a valid snapshot is reduced line by line. -/
def reduceSaleItem (bs : List Batch) (br : Option Nat) (it : SaleItemRec) :
    Except StockError (List Batch) :=
  if it.allocatedBatches.isEmpty then
    fifoFallbackReduce bs it.productId br it.quantity
  else
    if sumAllocated it.allocatedBatches ≠ it.quantity then
      .error (.allocationMismatch it.productId (sumAllocated it.allocatedBatches)
        it.quantity)
    else reduceByBatches bs it.allocatedBatches

/-- Stock reduction of complete_sale over all items of the sale. -/
def reduceItems (br : Option Nat) : List Batch → List SaleItemRec →
    Except StockError (List Batch)
  | bs, [] => .ok bs
  | bs, it :: rest =>
    match reduceSaleItem bs br it with
    | .error e => .error e
    | .ok bs' => reduceItems br bs' rest

/-- Per-item stock reduction of create_direct_sale: a present snapshot is
reduced line by line without any sum validation; an absent one falls back
to FIFO. -/
def reduceDirectItem (bs : List Batch) (br : Option Nat) (it : SaleItemRec) :
    Except StockError (List Batch) :=
  if it.allocatedBatches.isEmpty then
    fifoFallbackReduce bs it.productId br it.quantity
  else reduceByBatches bs it.allocatedBatches

/-- Stock reduction of create_direct_sale over all items. -/
def reduceDirectItems (br : Option Nat) : List Batch → List SaleItemRec →
    Except StockError (List Batch)
  | bs, [] => .ok bs
  | bs, it :: rest =>
    match reduceDirectItem bs br it with
    | .error e => .error e
    | .ok bs' => reduceDirectItems br bs' rest

/-- Per-item stock reduction of the create_sale endpoint: a present
snapshot whose total disagrees with the item quantity silently falls back
to a fresh FIFO reduction instead of raising. -/
def reduceCreateSaleItem (bs : List Batch) (br : Option Nat) (it : SaleItemRec) :
    Except StockError (List Batch) :=
  if it.allocatedBatches.isEmpty then
    fifoFallbackReduce bs it.productId br it.quantity
  else
    if sumAllocated it.allocatedBatches ≠ it.quantity then
      fifoFallbackReduce bs it.productId br it.quantity
    else reduceByBatches bs it.allocatedBatches

/-! Pending bill endpoints (save_pending_bill, update_pending_bill). -/

/-- Request body of the pending-bill endpoints. Option fields model keys
that may be absent from the JSON body. -/
structure PendingReq where
  patientName : String
  patientPhone : String
  patientAge : Option String
  patientGender : Option String
  branchId : Option Nat
  subtotal : Rat
  discountAmount : Rat
  paymentMethod : Option String
  items : List ItemReq
deriving Repr, DecidableEq

/-- Response of the pending-bill endpoints (success info or the 500
error). -/
inductive PendingResult where
  | ok (saleId : Nat) (saleNumber : String)
  | err
deriving Repr, DecidableEq

/-- Sale row created by save_pending_bill: pending status, zero paid, the
whole calculated total carried as credit, and the snapshot items. -/
def savePendingSaleFields (saleId : Nat) (user : UserCtx) (now : Nat)
    (req : PendingReq) (items : List SaleItemRec) : SaleRec :=
  let branchId := resolveBranch req.branchId user.branchId
  let amounts := pendingAmounts req.subtotal req.discountAmount
  { id := saleId,
    saleNumber := "PENDING_" ++ branchText branchId ++ "_" ++ toString now,
    patientName := if req.patientName ≠ "" then req.patientName else "Walk-in Customer",
    patientAge := req.patientAge.getD "",
    patientPhone := req.patientPhone,
    patientGender := req.patientGender.getD "",
    saleType := req.paymentMethod.getD "cash",
    subtotal := req.subtotal,
    taxAmount := amounts.1,
    discountAmount := req.discountAmount,
    totalAmount := amounts.2,
    amountPaid := 0,
    creditAmount := amounts.2,
    changeAmount := 0,
    paymentMethod := req.paymentMethod.getD "cash",
    transactionId := "",
    organizationId := user.organizationId,
    branchId := branchId,
    status := .pending,
    items := items }

/-- POST save-pending-bill: persists the pending sale and its snapshot
items inside one transaction; a missing product rolls everything back. No
inventory row and no payment row is touched. -/
def save_pending_bill (db : DB) (user : UserCtx) (now : Nat)
    (req : PendingReq) : PendingResult × DB :=
  match mkSaleItems db.products req.items with
  | .error _ => (.err, db)
  | .ok items =>
    let sale := savePendingSaleFields db.nextSaleId user now req items
    (.ok sale.id sale.saleNumber,
     { db with sales := db.sales ++ [sale], nextSaleId := db.nextSaleId + 1 })

/-- Lookup predicate of get_object_or_404(Sale, id=sale_id,
status=pending, organization_id=...). -/
def pendingPred (saleId org : Nat) (s : SaleRec) : Bool :=
  s.id == saleId && decide (s.status = SaleStatus.pending) && s.organizationId == org

/-- Field update applied by update_pending_bill to the found pending sale;
amounts are recomputed from the request, items are replaced wholesale,
amount_paid and status are left untouched. -/
def updatePendingFields (sale : SaleRec) (req : PendingReq)
    (items : List SaleItemRec) : SaleRec :=
  let amounts := pendingAmounts req.subtotal req.discountAmount
  { id := sale.id,
    saleNumber := sale.saleNumber,
    patientName := if req.patientName ≠ "" then req.patientName else sale.patientName,
    patientAge := req.patientAge.getD sale.patientAge,
    patientPhone := if req.patientPhone ≠ "" then req.patientPhone else sale.patientPhone,
    patientGender := req.patientGender.getD sale.patientGender,
    saleType := sale.saleType,
    subtotal := req.subtotal,
    taxAmount := amounts.1,
    discountAmount := req.discountAmount,
    totalAmount := amounts.2,
    amountPaid := sale.amountPaid,
    creditAmount := amounts.2,
    changeAmount := sale.changeAmount,
    paymentMethod := req.paymentMethod.getD sale.paymentMethod,
    transactionId := sale.transactionId,
    organizationId := sale.organizationId,
    branchId := sale.branchId,
    status := sale.status,
    items := items }

/-- PUT update-pending-bill: finds the pending sale of the acting
organization, overwrites its fields from the request, and replaces its
items (delete-then-recreate). No inventory row and no payment row is
touched. -/
def update_pending_bill (db : DB) (user : UserCtx) (saleId : Nat)
    (req : PendingReq) : PendingResult × DB :=
  match db.sales.find? (pendingPred saleId user.organizationId) with
  | none => (.err, db)
  | some sale =>
    match mkSaleItems db.products req.items with
    | .error _ => (.err, db)
    | .ok items =>
      let sale' := updatePendingFields sale req items
      (.ok sale'.id sale'.saleNumber,
       { db with sales := db.sales.map (fun s => if s.id = sale.id then sale' else s) })

/-! Sale completion endpoints (complete_sale, create_direct_sale,
process_credit_payment). -/

/-- Request body of the complete-sale endpoint. Option fields model keys
that may be absent (their defaults come from the pending sale or are
constants). -/
structure CompleteReq where
  saleId : Option Nat
  patientName : Option String
  patientAge : Option String
  patientPhone : Option String
  patientGender : Option String
  subtotal : Option Rat
  taxAmount : Option Rat
  discountAmount : Option Rat
  total : Option Rat
  paidAmount : Rat
  paymentMethod : Option String
  transactionId : Option String
  branchId : Option Nat
  items : Option (List ItemReq)
  splitPayments : List SplitPaymentReq
deriving Repr, DecidableEq

/-- Response of the complete-sale endpoint. -/
inductive CompleteResult where
  | ok (saleId : Nat) (saleNumber : String)
  | err (e : StockError)
deriving Repr, DecidableEq

/-- Field update applied when a pending sale is completed: every monetary
field defaults to the stored one, total_amount is taken from the request
as-is, credit is max(0, total − paid), change is max(0, paid − total), the
status flips to completed and the sale number is reassigned to the BILL
scheme. -/
def completePendingSaleFields (sale : SaleRec) (req : CompleteReq)
    (now : Nat) : SaleRec :=
  let paid := req.paidAmount
  let total := req.total.getD sale.totalAmount
  { sale with
    patientName := req.patientName.getD sale.patientName,
    patientAge := req.patientAge.getD sale.patientAge,
    patientPhone := req.patientPhone.getD sale.patientPhone,
    patientGender := req.patientGender.getD sale.patientGender,
    subtotal := req.subtotal.getD sale.subtotal,
    taxAmount := req.taxAmount.getD sale.taxAmount,
    discountAmount := req.discountAmount.getD sale.discountAmount,
    totalAmount := total,
    amountPaid := paid,
    creditAmount := max 0 (total - paid),
    changeAmount := max 0 (paid - total),
    paymentMethod := req.paymentMethod.getD sale.paymentMethod,
    transactionId := req.transactionId.getD "",
    status := .completed,
    saleNumber := "BILL_" ++ branchText sale.branchId ++ "_" ++ toString now }

/-- Items a completion operates on: the replacement items when the request
carries an items key, else the stored ones. -/
def completionItems (db : DB) (req : CompleteReq) (sale : SaleRec) :
    Except StockError (List SaleItemRec) :=
  match req.items with
  | none => .ok sale.items
  | some its => mkSaleItems db.products its

/-- Transaction body of completing an existing pending sale: find it,
overwrite its fields, replace items when provided, reduce stock for every
item, then create the payment rows. Any raise aborts the whole
transaction. -/
def completePendingTx (db : DB) (user : UserCtx) (now : Nat) (sid : Nat)
    (req : CompleteReq) : Except StockError (CompleteResult × DB) :=
  match db.sales.find? (pendingPred sid user.organizationId) with
  | none => .error .saleNotFound
  | some sale =>
    match completionItems db req sale with
    | .error e => .error e
    | .ok items =>
      let sale2 := { completePendingSaleFields sale req now with items := items }
      match reduceItems sale.branchId db.batches items with
      | .error e => .error e
      | .ok batches' =>
        .ok (.ok sale2.id sale2.saleNumber,
          { db with
            batches := batches',
            sales := db.sales.map (fun s => if s.id = sale.id then sale2 else s),
            payments := db.payments ++
              mkPayments sale2.id req.paidAmount
                (req.paymentMethod.getD sale.paymentMethod)
                (req.transactionId.getD "") req.splitPayments })

/-- Sale row created by create_direct_sale: completed status, total
recomputed discount-before-tax, credit and change from the paid amount. -/
def directSaleFields (saleId : Nat) (user : UserCtx) (now : Nat)
    (req : CompleteReq) (items : List SaleItemRec) : SaleRec :=
  let branchId := resolveBranch req.branchId user.branchId
  let subtotal := req.subtotal.getD 0
  let discount := req.discountAmount.getD 0
  let amounts := pendingAmounts subtotal discount
  let paid := req.paidAmount
  { id := saleId,
    saleNumber := "BILL_" ++ branchText branchId ++ "_" ++ toString now,
    patientName :=
      if req.patientName.getD "" ≠ "" then req.patientName.getD ""
      else "Walk-in Customer",
    patientAge := req.patientAge.getD "",
    patientPhone := req.patientPhone.getD "",
    patientGender := req.patientGender.getD "",
    saleType := req.paymentMethod.getD "cash",
    subtotal := subtotal,
    taxAmount := amounts.1,
    discountAmount := discount,
    totalAmount := amounts.2,
    amountPaid := paid,
    creditAmount := max 0 (amounts.2 - paid),
    changeAmount := max 0 (paid - amounts.2),
    paymentMethod := req.paymentMethod.getD "cash",
    transactionId := req.transactionId.getD "",
    organizationId := user.organizationId,
    branchId := branchId,
    status := .completed,
    items := items }

/-- Transaction body of create_direct_sale: create the completed sale and
its items, reduce stock per item (snapshot lines or FIFO fallback), then
create the payment rows. -/
def createDirectTx (db : DB) (user : UserCtx) (now : Nat) (req : CompleteReq) :
    Except StockError (CompleteResult × DB) :=
  match mkSaleItems db.products (req.items.getD []) with
  | .error e => .error e
  | .ok items =>
    let sale := directSaleFields db.nextSaleId user now req items
    match reduceDirectItems sale.branchId db.batches items with
    | .error e => .error e
    | .ok batches' =>
      .ok (.ok sale.id sale.saleNumber,
        { db with
          batches := batches',
          sales := db.sales ++ [sale],
          nextSaleId := db.nextSaleId + 1,
          payments := db.payments ++
            mkPayments sale.id req.paidAmount (req.paymentMethod.getD "cash")
              (req.transactionId.getD "") req.splitPayments })

/-- Transaction body of the complete-sale endpoint: an existing pending
sale is completed when sale_id is given, else a direct sale is created. -/
def complete_saleTx (db : DB) (user : UserCtx) (now : Nat) (req : CompleteReq) :
    Except StockError (CompleteResult × DB) :=
  match req.saleId with
  | some sid => completePendingTx db user now sid req
  | none => createDirectTx db user now req

/-- POST complete-sale endpoint: the transaction body runs inside
transaction.atomic and the surrounding except-handler turns any raise into
a 500 response, so an aborted transaction leaves the database exactly as
it was. -/
def complete_sale (db : DB) (user : UserCtx) (now : Nat) (req : CompleteReq) :
    CompleteResult × DB :=
  match complete_saleTx db user now req with
  | .ok r => r
  | .error e => (.err e, db)

/-- Response of the credit-payment endpoint. -/
inductive CreditPaymentResult where
  | ok (remainingCredit totalPaid : Rat)
  | noCredit
  | badAmount
  | exceedsCredit
  | notFound
deriving Repr, DecidableEq

/-- Field update applied by a credit payment: the amount moves from
credit_amount to amount_paid. -/
def creditPaymentFields (sale : SaleRec) (amount : Rat) : SaleRec :=
  { sale with
    amountPaid := sale.amountPaid + amount,
    creditAmount := sale.creditAmount - amount }

/-- POST pay-credit endpoint: only legal while credit remains and
0 < amount ≤ credit; creates one payment row, adds the amount to
amount_paid and subtracts it from credit_amount. -/
def process_credit_payment (db : DB) (user : UserCtx) (saleNumber : String)
    (amount : Rat) (method refNum : String) : CreditPaymentResult × DB :=
  match db.sales.find?
      (fun s => s.saleNumber == saleNumber && s.organizationId == user.organizationId) with
  | none => (.notFound, db)
  | some sale =>
    if sale.creditAmount ≤ 0 then (.noCredit, db)
    else if amount ≤ 0 then (.badAmount, db)
    else if sale.creditAmount < amount then (.exceedsCredit, db)
    else
      let sale' := creditPaymentFields sale amount
      (.ok sale'.creditAmount sale'.amountPaid,
       { db with
         sales := db.sales.map (fun s => if s.id = sale.id then sale' else s),
         payments := db.payments ++
           [{ saleId := sale.id, amount := amount, paymentMethod := method,
              referenceNumber := refNum }] })

/-! Monotonicity of stock reduction: every reduction step keeps each row
(and all its non-quantity fields) and can only shrink its quantity. -/

/-- Same row with a possibly smaller quantity. -/
def sameRowLe (b' b : Batch) : Prop :=
  b'.quantity ≤ b.quantity ∧
    ({ b' with quantity := 0 } : Batch) = { b with quantity := 0 }

/-- Pointwise same rows with possibly smaller quantities. -/
def rowsLe (bs' bs : List Batch) : Prop :=
  List.Forall₂ sameRowLe bs' bs

theorem sameRowLe_refl (b : Batch) : sameRowLe b b :=
  ⟨le_refl _, rfl⟩

theorem sameRowLe_trans {a b c : Batch} (h1 : sameRowLe a b)
    (h2 : sameRowLe b c) : sameRowLe a c :=
  ⟨le_trans h1.1 h2.1, h1.2.trans h2.2⟩

theorem sameRowLe_id {b' b : Batch} (h : sameRowLe b' b) : b'.id = b.id := by
  have h2 := congrArg Batch.id h.2
  exact h2

theorem sameRowLe_productId {b' b : Batch} (h : sameRowLe b' b) :
    b'.productId = b.productId := by
  have h2 := congrArg Batch.productId h.2
  exact h2

theorem sameRowLe_branchId {b' b : Batch} (h : sameRowLe b' b) :
    b'.branchId = b.branchId := by
  have h2 := congrArg Batch.branchId h.2
  exact h2

theorem sameRowLe_isActive {b' b : Batch} (h : sameRowLe b' b) :
    b'.isActive = b.isActive := by
  have h2 := congrArg Batch.isActive h.2
  exact h2

theorem rowsLe_refl (bs : List Batch) : rowsLe bs bs := by
  induction bs with
  | nil => exact List.Forall₂.nil
  | cons b rest ih => exact List.Forall₂.cons (sameRowLe_refl b) ih

theorem rowsLe_trans {a b c : List Batch} (h1 : rowsLe a b) (h2 : rowsLe b c) :
    rowsLe a c := by
  induction h1 generalizing c with
  | nil =>
    cases h2
    exact List.Forall₂.nil
  | cons hab htail ih =>
    cases h2 with
    | cons hbc htail2 => exact List.Forall₂.cons (sameRowLe_trans hab hbc) (ih htail2)

theorem rowsLe_mem {bs' bs : List Batch} (h : rowsLe bs' bs) {b' : Batch}
    (hb' : b' ∈ bs') : ∃ b ∈ bs, sameRowLe b' b := by
  induction h with
  | nil => simp at hb'
  | cons hab htail ih =>
    rcases List.mem_cons.mp hb' with rfl | hmem
    · exact ⟨_, List.mem_cons_self _ _, hab⟩
    · rcases ih hmem with ⟨b, hb, hle⟩
      exact ⟨b, List.mem_cons_of_mem _ hb, hle⟩

theorem decOne_rowsLe (i a : Nat) (bs : List Batch) :
    rowsLe (decOne i a bs) bs := by
  induction bs with
  | nil => exact List.Forall₂.nil
  | cons b rest ih =>
    refine List.Forall₂.cons ?_ ih
    by_cases h : b.id = i
    · simp only [decOne, if_pos h]
      exact ⟨Nat.sub_le _ _, rfl⟩
    · simp only [decOne, if_neg h]
      exact sameRowLe_refl b

theorem applyDecrements_rowsLe (ps : List (Nat × Nat)) (bs : List Batch) :
    rowsLe (applyDecrements bs ps) bs := by
  induction ps generalizing bs with
  | nil => exact rowsLe_refl bs
  | cons p rest ih =>
    have hstep : applyDecrements bs (p :: rest) =
        applyDecrements (decOne p.1 p.2 bs) rest := rfl
    rw [hstep]
    exact rowsLe_trans (ih (decOne p.1 p.2 bs)) (decOne_rowsLe p.1 p.2 bs)

theorem reduceByBatches_ok_rowsLe : ∀ (abs : List AllocatedBatch)
    (bs bs' : List Batch), reduceByBatches bs abs = .ok bs' → rowsLe bs' bs := by
  intro abs
  induction abs with
  | nil =>
    intro bs bs' h
    rw [reduceByBatches] at h
    cases h
    exact rowsLe_refl bs
  | cons ab rest ih =>
    intro bs bs' h
    rw [reduceByBatches] at h
    split at h
    · cases h
    · split at h
      · exact rowsLe_trans (ih _ _ h)
          (decOne_rowsLe ab.inventoryItemId ab.allocatedQuantity bs)
      · cases h

theorem fifoFallbackReduce_ok_rowsLe (bs bs' : List Batch) (pid : Nat)
    (br : Option Nat) (qty : Nat)
    (h : fifoFallbackReduce bs pid br qty = .ok bs') : rowsLe bs' bs := by
  simp only [fifoFallbackReduce] at h
  split at h
  · cases h
  · cases h
    exact applyDecrements_rowsLe _ bs

theorem reduceSaleItem_ok_rowsLe (bs bs' : List Batch) (br : Option Nat)
    (it : SaleItemRec) (h : reduceSaleItem bs br it = .ok bs') :
    rowsLe bs' bs := by
  rw [reduceSaleItem] at h
  by_cases hemp : it.allocatedBatches.isEmpty = true
  · rw [if_pos hemp] at h
    exact fifoFallbackReduce_ok_rowsLe bs bs' it.productId br it.quantity h
  · rw [if_neg hemp] at h
    by_cases hmis : sumAllocated it.allocatedBatches ≠ it.quantity
    · rw [if_pos hmis] at h
      cases h
    · rw [if_neg hmis] at h
      exact reduceByBatches_ok_rowsLe it.allocatedBatches bs bs' h

theorem reduceDirectItem_ok_rowsLe (bs bs' : List Batch) (br : Option Nat)
    (it : SaleItemRec) (h : reduceDirectItem bs br it = .ok bs') :
    rowsLe bs' bs := by
  rw [reduceDirectItem] at h
  by_cases hemp : it.allocatedBatches.isEmpty = true
  · rw [if_pos hemp] at h
    exact fifoFallbackReduce_ok_rowsLe bs bs' it.productId br it.quantity h
  · rw [if_neg hemp] at h
    exact reduceByBatches_ok_rowsLe it.allocatedBatches bs bs' h

/-! Failure conditions that make a stock reduction raise. -/

/-- Every stored row carrying the referenced id holds fewer units than the
snapshot line allocates from it. -/
def shortRef (bs : List Batch) (ab : AllocatedBatch) : Prop :=
  ∀ b ∈ bs, b.id = ab.inventoryItemId → b.quantity < ab.allocatedQuantity

theorem shortRef_of_rowsLe {bs' bs : List Batch} (hrows : rowsLe bs' bs)
    {ab : AllocatedBatch} (h : shortRef bs ab) : shortRef bs' ab := by
  intro b' hb' hid
  rcases rowsLe_mem hrows hb' with ⟨b, hb, hle⟩
  have hlt := h b hb ((sameRowLe_id hle).symm.trans hid)
  have hq := hle.1
  omega

theorem fallbackEligible_mono {b' b : Batch} (pid : Nat) (br : Option Nat)
    (hle : sameRowLe b' b) (h : fallbackEligible pid br b' = true) :
    fallbackEligible pid br b = true := by
  simp only [fallbackEligible, Bool.and_eq_true, beq_iff_eq,
    decide_eq_true_eq] at h ⊢
  rcases h with ⟨⟨⟨h1, h2⟩, h3⟩, h4⟩
  refine ⟨⟨⟨?_, ?_⟩, ?_⟩, ?_⟩
  · rw [← sameRowLe_productId hle]
    exact h1
  · rw [← sameRowLe_branchId hle]
    exact h2
  · have := hle.1
    omega
  · rw [← sameRowLe_isActive hle]
    exact h4

theorem sumQuantities_filter_mono {bs' bs : List Batch} (pid : Nat)
    (br : Option Nat) (hrows : rowsLe bs' bs) :
    sumQuantities (bs'.filter (fallbackEligible pid br)) ≤
      sumQuantities (bs.filter (fallbackEligible pid br)) := by
  induction hrows with
  | nil => exact le_refl _
  | cons hab htail ih =>
    rename_i b' b l' l
    simp only [List.filter_cons]
    by_cases h1 : fallbackEligible pid br b' = true
    · rw [if_pos h1, if_pos (fallbackEligible_mono pid br hab h1)]
      simp only [sumQuantities, List.map_cons, List.sum_cons] at ih ⊢
      have hq := hab.1
      omega
    · rw [if_neg h1]
      by_cases h2 : fallbackEligible pid br b = true
      · rw [if_pos h2]
        simp only [sumQuantities, List.map_cons, List.sum_cons] at ih ⊢
        omega
      · rw [if_neg h2]
        exact ih

theorem sumQuantities_insertionSort (r : Batch → Batch → Prop)
    [DecidableRel r] (l : List Batch) :
    sumQuantities (List.insertionSort r l) = sumQuantities l := by
  unfold sumQuantities
  exact List.Perm.sum_eq (List.Perm.map Batch.quantity (List.perm_insertionSort r l))

/-- The FIFO fallback raises insufficient-total exactly when the request
exceeds the current eligible total. -/
theorem fifoFallbackReduce_error_of_insufficient (bs : List Batch)
    (pid : Nat) (br : Option Nat) (qty : Nat)
    (h : sumQuantities (bs.filter (fallbackEligible pid br)) < qty) :
    fifoFallbackReduce bs pid br qty = .error (.insufficientTotal pid) := by
  simp only [fifoFallbackReduce]
  rw [greedyAmounts_snd_sum, sumQuantities_insertionSort]
  rw [if_pos (by omega)]

theorem reduceByBatches_cons_none {bs : List Batch} {ab : AllocatedBatch}
    {rest : List AllocatedBatch}
    (h : bs.find? (fun b => b.id == ab.inventoryItemId) = none) :
    reduceByBatches bs (ab :: rest) = .error (.batchNotFound ab.inventoryItemId) := by
  rw [reduceByBatches, h]

theorem reduceByBatches_cons_some {bs : List Batch} {ab : AllocatedBatch}
    {rest : List AllocatedBatch} {b : Batch}
    (h : bs.find? (fun b => b.id == ab.inventoryItemId) = some b) :
    reduceByBatches bs (ab :: rest) =
      if ab.allocatedQuantity ≤ b.quantity then
        reduceByBatches (decOne ab.inventoryItemId ab.allocatedQuantity bs) rest
      else .error (.insufficientBatch ab.batchNumber) := by
  rw [reduceByBatches, h]

theorem reduceByBatches_error_of_short : ∀ (abs : List AllocatedBatch)
    (bs : List Batch) (ab : AllocatedBatch), ab ∈ abs → shortRef bs ab →
    ∃ e, reduceByBatches bs abs = .error e := by
  intro abs
  induction abs with
  | nil =>
    intro bs ab hab
    simp at hab
  | cons ab0 rest ih =>
    intro bs ab hab hshort
    cases hfind : bs.find? (fun b => b.id == ab0.inventoryItemId) with
    | none => exact ⟨_, reduceByBatches_cons_none hfind⟩
    | some b =>
      by_cases hle : ab0.allocatedQuantity ≤ b.quantity
      · rcases List.mem_cons.mp hab with rfl | hmem
        · have hb := List.mem_of_find?_eq_some hfind
          have hp := List.find?_some hfind
          simp only [beq_iff_eq] at hp
          have := hshort b hb hp
          omega
        · rcases ih _ ab hmem (shortRef_of_rowsLe
            (decOne_rowsLe ab0.inventoryItemId ab0.allocatedQuantity bs) hshort)
            with ⟨e, he⟩
          exact ⟨e, by rw [reduceByBatches_cons_some hfind, if_pos hle]; exact he⟩
      · exact ⟨_, by rw [reduceByBatches_cons_some hfind, if_neg hle]⟩

/-- A sale item whose stock reduction must raise inside complete_sale: a
consistent snapshot naming a row that no longer holds enough units, or an
absent snapshot whose FIFO fallback cannot cover the quantity. -/
def badItem (bs : List Batch) (br : Option Nat) (it : SaleItemRec) : Prop :=
  (it.allocatedBatches ≠ [] ∧ sumAllocated it.allocatedBatches = it.quantity ∧
    ∃ ab ∈ it.allocatedBatches, shortRef bs ab) ∨
  (it.allocatedBatches = [] ∧
    sumQuantities (bs.filter (fallbackEligible it.productId br)) < it.quantity)

theorem badItem_of_rowsLe {bs' bs : List Batch} {br : Option Nat}
    {it : SaleItemRec} (hrows : rowsLe bs' bs) (h : badItem bs br it) :
    badItem bs' br it := by
  rcases h with ⟨hne, hsum, ab, hab, hshort⟩ | ⟨hemp, hlt⟩
  · exact Or.inl ⟨hne, hsum, ab, hab, shortRef_of_rowsLe hrows hshort⟩
  · refine Or.inr ⟨hemp, ?_⟩
    have := sumQuantities_filter_mono it.productId br hrows
    omega

theorem reduceSaleItem_error_of_bad (bs : List Batch) (br : Option Nat)
    (it : SaleItemRec) (h : badItem bs br it) :
    ∃ e, reduceSaleItem bs br it = .error e := by
  rcases h with ⟨hne, hsum, ab, hab, hshort⟩ | ⟨hemp, hlt⟩
  · have hemp : it.allocatedBatches.isEmpty = false := by
      cases hb : it.allocatedBatches with
      | nil => exact absurd hb hne
      | cons x xs => rfl
    rcases reduceByBatches_error_of_short it.allocatedBatches bs ab hab hshort
      with ⟨e, he⟩
    refine ⟨e, ?_⟩
    rw [reduceSaleItem, hemp]
    simp only [Bool.false_eq_true, if_false]
    rw [if_neg (by omega), he]
  · refine ⟨.insufficientTotal it.productId, ?_⟩
    rw [reduceSaleItem, hemp]
    simp only [List.isEmpty_nil, if_true]
    exact fifoFallbackReduce_error_of_insufficient bs it.productId br it.quantity hlt

theorem reduceItems_error_of_bad : ∀ (items : List SaleItemRec)
    (bs : List Batch) (br : Option Nat),
    (∃ it ∈ items, badItem bs br it) →
    ∃ e, reduceItems br bs items = .error e := by
  intro items
  induction items with
  | nil =>
    intro bs br h
    rcases h with ⟨it, hit, _⟩
    simp at hit
  | cons it0 rest ih =>
    intro bs br h
    rcases h with ⟨it, hit, hbad⟩
    rcases List.mem_cons.mp hit with rfl | hmem
    · rcases reduceSaleItem_error_of_bad bs br it hbad with ⟨e, he⟩
      exact ⟨e, by rw [reduceItems, he]⟩
    · cases h0 : reduceSaleItem bs br it0 with
      | error e => exact ⟨e, by rw [reduceItems, h0]⟩
      | ok bs1 =>
        rcases ih bs1 br ⟨it, hmem,
          badItem_of_rowsLe (reduceSaleItem_ok_rowsLe bs bs1 br it0 h0) hbad⟩
          with ⟨e, he⟩
        exact ⟨e, by rw [reduceItems, h0]; exact he⟩

/-- A sale item whose stock reduction must raise inside create_direct_sale:
its snapshot (not sum-checked there) names a row that no longer holds
enough units, or the absent-snapshot FIFO fallback cannot cover it. -/
def badDirectItem (bs : List Batch) (br : Option Nat) (it : SaleItemRec) : Prop :=
  (it.allocatedBatches ≠ [] ∧ ∃ ab ∈ it.allocatedBatches, shortRef bs ab) ∨
  (it.allocatedBatches = [] ∧
    sumQuantities (bs.filter (fallbackEligible it.productId br)) < it.quantity)

theorem badDirectItem_of_rowsLe {bs' bs : List Batch} {br : Option Nat}
    {it : SaleItemRec} (hrows : rowsLe bs' bs) (h : badDirectItem bs br it) :
    badDirectItem bs' br it := by
  rcases h with ⟨hne, ab, hab, hshort⟩ | ⟨hemp, hlt⟩
  · exact Or.inl ⟨hne, ab, hab, shortRef_of_rowsLe hrows hshort⟩
  · refine Or.inr ⟨hemp, ?_⟩
    have := sumQuantities_filter_mono it.productId br hrows
    omega

theorem reduceDirectItem_error_of_bad (bs : List Batch) (br : Option Nat)
    (it : SaleItemRec) (h : badDirectItem bs br it) :
    ∃ e, reduceDirectItem bs br it = .error e := by
  rcases h with ⟨hne, ab, hab, hshort⟩ | ⟨hemp, hlt⟩
  · have hemp : it.allocatedBatches.isEmpty = false := by
      cases hb : it.allocatedBatches with
      | nil => exact absurd hb hne
      | cons x xs => rfl
    rcases reduceByBatches_error_of_short it.allocatedBatches bs ab hab hshort
      with ⟨e, he⟩
    refine ⟨e, ?_⟩
    rw [reduceDirectItem, hemp]
    simp only [Bool.false_eq_true, if_false]
    exact he
  · refine ⟨.insufficientTotal it.productId, ?_⟩
    rw [reduceDirectItem, hemp]
    simp only [List.isEmpty_nil, if_true]
    exact fifoFallbackReduce_error_of_insufficient bs it.productId br it.quantity hlt

theorem reduceDirectItems_error_of_bad : ∀ (items : List SaleItemRec)
    (bs : List Batch) (br : Option Nat),
    (∃ it ∈ items, badDirectItem bs br it) →
    ∃ e, reduceDirectItems br bs items = .error e := by
  intro items
  induction items with
  | nil =>
    intro bs br h
    rcases h with ⟨it, hit, _⟩
    simp at hit
  | cons it0 rest ih =>
    intro bs br h
    rcases h with ⟨it, hit, hbad⟩
    rcases List.mem_cons.mp hit with rfl | hmem
    · rcases reduceDirectItem_error_of_bad bs br it hbad with ⟨e, he⟩
      exact ⟨e, by rw [reduceDirectItems, he]⟩
    · cases h0 : reduceDirectItem bs br it0 with
      | error e => exact ⟨e, by rw [reduceDirectItems, h0]⟩
      | ok bs1 =>
        rcases ih bs1 br ⟨it, hmem,
          badDirectItem_of_rowsLe (reduceDirectItem_ok_rowsLe bs bs1 br it0 h0) hbad⟩
          with ⟨e, he⟩
        exact ⟨e, by rw [reduceDirectItems, h0]; exact he⟩

/-! Claim C3: completion is all-or-nothing. -/

/-- C3: if, for the items a completion operates on, some line must fail —
a consistent snapshot referencing a row that holds fewer units than the
line allocates, or an absent snapshot whose FIFO fallback cannot cover the
quantity — then the whole call (pending completion and direct creation
alike) returns an error and the database is exactly the one before the
call: no batch reduction, no sale change, no payment row survives. -/
theorem complete_sale_all_or_nothing (db : DB) (user : UserCtx) (now : Nat)
    (req : CompleteReq) :
    (∀ sid sale items, req.saleId = some sid →
      db.sales.find? (pendingPred sid user.organizationId) = some sale →
      completionItems db req sale = .ok items →
      (∃ it ∈ items, badItem db.batches sale.branchId it) →
      ∃ e, complete_sale db user now req = (.err e, db)) ∧
    (∀ items, req.saleId = none →
      mkSaleItems db.products (req.items.getD []) = .ok items →
      (∃ it ∈ items,
        badDirectItem db.batches (resolveBranch req.branchId user.branchId) it) →
      ∃ e, complete_sale db user now req = (.err e, db)) := by
  constructor
  · intro sid sale items hsid hfind hitems hbad
    rcases reduceItems_error_of_bad items db.batches sale.branchId hbad with ⟨e, he⟩
    refine ⟨e, ?_⟩
    have htx : complete_saleTx db user now req = .error e := by
      simp only [complete_saleTx, hsid, completePendingTx, hfind, hitems, he]
    rw [complete_sale, htx]
  · intro items hsid hitems hbad
    rcases reduceDirectItems_error_of_bad items db.batches
      (resolveBranch req.branchId user.branchId) hbad with ⟨e, he⟩
    refine ⟨e, ?_⟩
    have htx : complete_saleTx db user now req = .error e := by
      simp only [complete_saleTx, hsid, createDirectTx, hitems, directSaleFields, he]
    rw [complete_sale, htx]

/-- Batch referenced by the first line of the witness sale. -/
def atomBatchA : Batch :=
  { id := 51, productId := 7, organizationId := 1, branchId := 2, quantity := 5,
    costPrice := 10, sellingPrice := some 12, batchNumber := "A",
    expiryDate := some 100, createdAt := 1, isActive := true, location := "" }

/-- Batch referenced by the second line of the witness sale; it holds 1
unit while the snapshot line needs 3. -/
def atomBatchB : Batch :=
  { id := 52, productId := 8, organizationId := 1, branchId := 2, quantity := 1,
    costPrice := 10, sellingPrice := some 12, batchNumber := "B",
    expiryDate := some 100, createdAt := 2, isActive := true, location := "" }

/-- Pending sale with two items; its first line is coverable, its second
is not. -/
def atomSale : SaleRec :=
  { id := 9, saleNumber := "PENDING_2_1", patientName := "W", patientAge := "",
    patientPhone := "", patientGender := "", saleType := "cash", subtotal := 100,
    taxAmount := 13, discountAmount := 0, totalAmount := 113, amountPaid := 0,
    creditAmount := 113, changeAmount := 0, paymentMethod := "cash",
    transactionId := "", organizationId := 1, branchId := some 2,
    status := .pending,
    items := [
      { productId := 7, quantity := 2, unitPrice := 12, batchNumber := "A",
        allocatedBatches := [{ inventoryItemId := 51, batchNumber := "A",
                               allocatedQuantity := 2 }] },
      { productId := 8, quantity := 3, unitPrice := 12, batchNumber := "B",
        allocatedBatches := [{ inventoryItemId := 52, batchNumber := "B",
                               allocatedQuantity := 3 }] }] }

/-- Database holding the witness sale. -/
def atomDb : DB :=
  { batches := [atomBatchA, atomBatchB], sales := [atomSale], payments := [],
    products := [7, 8], nextSaleId := 100 }

/-- Acting user of the witness requests. -/
def posUser : UserCtx := { userId := 1, organizationId := 1, branchId := some 2 }

/-- Completion request for the witness sale. -/
def atomReq : CompleteReq :=
  { saleId := some 9, patientName := none, patientAge := none,
    patientPhone := none, patientGender := none, subtotal := none,
    taxAmount := none, discountAmount := none, total := none, paidAmount := 0,
    paymentMethod := none, transactionId := none, branchId := none,
    items := none, splitPayments := [] }

/-- Direct-sale request whose single cart item has no snapshot and asks
for more than the store holds. -/
def atomDirectReq : CompleteReq :=
  { saleId := none, patientName := none, patientAge := none,
    patientPhone := none, patientGender := none, subtotal := none,
    taxAmount := none, discountAmount := none, total := none, paidAmount := 0,
    paymentMethod := none, transactionId := none, branchId := some 2,
    items := some [{ medicineId := 7, quantity := 50, price := 12, batch := "",
                     batchInfo := [] }],
    splitPayments := [] }

/-- C3 witness: completing the two-item sale (second line short by 2
units) errors and leaves the database untouched, and so does a direct sale
whose FIFO fallback cannot cover the cart. -/
theorem complete_sale_all_or_nothing_witness :
    (∃ e, complete_sale atomDb posUser 1 atomReq = (.err e, atomDb)) ∧
    (∃ e, complete_sale atomDb posUser 1 atomDirectReq = (.err e, atomDb)) := by
  constructor
  · refine (complete_sale_all_or_nothing atomDb posUser 1 atomReq).1 9 atomSale
      atomSale.items rfl (by decide) rfl
      ⟨{ productId := 8, quantity := 3, unitPrice := 12, batchNumber := "B",
         allocatedBatches := [{ inventoryItemId := 52, batchNumber := "B",
                                allocatedQuantity := 3 }] }, by decide, ?_⟩
    unfold badItem shortRef
    decide
  · refine (complete_sale_all_or_nothing atomDb posUser 1 atomDirectReq).2
      [{ productId := 7, quantity := 50, unitPrice := 12, batchNumber := "",
         allocatedBatches := [] }] rfl rfl
      ⟨{ productId := 7, quantity := 50, unitPrice := 12, batchNumber := "",
         allocatedBatches := [] }, by decide, ?_⟩
    unfold badDirectItem shortRef
    decide

/-! Claim C4: what happens to the snapshot allocation at completion. -/

/-- Well-stocked batch for the mismatch counterexample. -/
def mismatchBatch : Batch :=
  { id := 61, productId := 7, organizationId := 1, branchId := 2, quantity := 10,
    costPrice := 10, sellingPrice := some 12, batchNumber := "X",
    expiryDate := some 100, createdAt := 1, isActive := true, location := "" }

/-- Pending sale whose single item carries a snapshot summing to 2 while
the item needs 3 units. -/
def mismatchSale : SaleRec :=
  { id := 5, saleNumber := "PENDING_2_1", patientName := "W", patientAge := "",
    patientPhone := "", patientGender := "", saleType := "cash", subtotal := 36,
    taxAmount := 0, discountAmount := 0, totalAmount := 36, amountPaid := 0,
    creditAmount := 36, changeAmount := 0, paymentMethod := "cash",
    transactionId := "", organizationId := 1, branchId := some 2,
    status := .pending,
    items := [
      { productId := 7, quantity := 3, unitPrice := 12, batchNumber := "X",
        allocatedBatches := [{ inventoryItemId := 61, batchNumber := "X",
                               allocatedQuantity := 2 }] }] }

/-- Database holding the mismatch sale and plenty of stock. -/
def mismatchDb : DB :=
  { batches := [mismatchBatch], sales := [mismatchSale], payments := [],
    products := [7], nextSaleId := 100 }

/-- Completion request for the mismatch sale. -/
def mismatchReq : CompleteReq :=
  { saleId := some 5, patientName := none, patientAge := none,
    patientPhone := none, patientGender := none, subtotal := none,
    taxAmount := none, discountAmount := none, total := none, paidAmount := 0,
    paymentMethod := none, transactionId := none, branchId := none,
    items := none, splitPayments := [] }

/-- C4 counterexample: completing a pending sale whose snapshot sums to 2
while the item needs 3 does not recompute the allocation via FIFO — even
though the eligible stock (10 units) could easily cover the 3 units, the
call fails with an allocation-mismatch error and reduces nothing. -/
theorem complete_sale_mismatch_cex :
    complete_sale mismatchDb posUser 1 mismatchReq =
      (.err (.allocationMismatch 7 2 3), mismatchDb) ∧
    3 ≤ sumQuantities (mismatchDb.batches.filter (fallbackEligible 7 (some 2))) := by
  constructor
  · decide
  · decide

/-- C4 (amended): at complete_sale each item with a present snapshot is
validated to sum to the item quantity — an absent snapshot falls back to a
fresh FIFO reduction, a mismatched one makes the completion fail with an
allocation-mismatch error, and only a matching one is reduced line by
line; the separate create_sale endpoint instead falls back to a fresh FIFO
reduction on a mismatch. -/
theorem snapshot_validation_behavior (bs : List Batch) (br : Option Nat)
    (it : SaleItemRec) :
    (it.allocatedBatches = [] →
      reduceSaleItem bs br it = fifoFallbackReduce bs it.productId br it.quantity) ∧
    (it.allocatedBatches ≠ [] → sumAllocated it.allocatedBatches ≠ it.quantity →
      reduceSaleItem bs br it =
        .error (.allocationMismatch it.productId
          (sumAllocated it.allocatedBatches) it.quantity)) ∧
    (it.allocatedBatches ≠ [] → sumAllocated it.allocatedBatches = it.quantity →
      reduceSaleItem bs br it = reduceByBatches bs it.allocatedBatches) ∧
    (it.allocatedBatches ≠ [] → sumAllocated it.allocatedBatches ≠ it.quantity →
      reduceCreateSaleItem bs br it =
        fifoFallbackReduce bs it.productId br it.quantity) := by
  refine ⟨?_, ?_, ?_, ?_⟩
  · intro hemp
    rw [reduceSaleItem, hemp]
    simp
  · intro hne hmis
    have hemp : it.allocatedBatches.isEmpty = false := by
      cases hb : it.allocatedBatches with
      | nil => exact absurd hb hne
      | cons x xs => rfl
    rw [reduceSaleItem, hemp]
    simp only [Bool.false_eq_true, if_false]
    rw [if_pos hmis]
  · intro hne hsum
    have hemp : it.allocatedBatches.isEmpty = false := by
      cases hb : it.allocatedBatches with
      | nil => exact absurd hb hne
      | cons x xs => rfl
    rw [reduceSaleItem, hemp]
    simp only [Bool.false_eq_true, if_false]
    rw [if_neg (by omega)]
  · intro hne hmis
    have hemp : it.allocatedBatches.isEmpty = false := by
      cases hb : it.allocatedBatches with
      | nil => exact absurd hb hne
      | cons x xs => rfl
    rw [reduceCreateSaleItem, hemp]
    simp only [Bool.false_eq_true, if_false]
    rw [if_pos hmis]

/-- C4 witness: the mismatched item of the counterexample database makes
reduceSaleItem raise the mismatch while reduceCreateSaleItem silently
re-runs FIFO. -/
theorem snapshot_validation_behavior_witness :
    reduceSaleItem [mismatchBatch] (some 2)
        { productId := 7, quantity := 3, unitPrice := 12, batchNumber := "X",
          allocatedBatches := [{ inventoryItemId := 61, batchNumber := "X",
                                 allocatedQuantity := 2 }] } =
      .error (.allocationMismatch 7 2 3) ∧
    reduceCreateSaleItem [mismatchBatch] (some 2)
        { productId := 7, quantity := 3, unitPrice := 12, batchNumber := "X",
          allocatedBatches := [{ inventoryItemId := 61, batchNumber := "X",
                                 allocatedQuantity := 2 }] } =
      fifoFallbackReduce [mismatchBatch] 7 (some 2) 3 := by
  constructor
  · exact (snapshot_validation_behavior [mismatchBatch] (some 2) _).2.1
      (by decide) (by decide)
  · exact (snapshot_validation_behavior [mismatchBatch] (some 2) _).2.2.2
      (by decide) (by decide)

/-! Claim C5: monetary invariants of the sale operations. -/

/-- Pending sale with no items used for the money counterexample. -/
def moneySale : SaleRec :=
  { id := 5, saleNumber := "PENDING_2_1", patientName := "W", patientAge := "",
    patientPhone := "", patientGender := "", saleType := "cash", subtotal := 100,
    taxAmount := 13, discountAmount := 0, totalAmount := 113, amountPaid := 0,
    creditAmount := 113, changeAmount := 0, paymentMethod := "cash",
    transactionId := "", organizationId := 1, branchId := some 2,
    status := .pending, items := [] }

/-- Completion request that pays 200 against a request-supplied total of
50 (subtotal 100, no discount). -/
def moneyReq : CompleteReq :=
  { saleId := some 5, patientName := none, patientAge := none,
    patientPhone := none, patientGender := none, subtotal := some 100,
    taxAmount := none, discountAmount := some 0, total := some 50,
    paidAmount := 200, paymentMethod := none, transactionId := none,
    branchId := none, items := none, splitPayments := [] }

/-- Database holding the money counterexample sale. -/
def moneyDb : DB :=
  { batches := [], sales := [moneySale], payments := [], products := [],
    nextSaleId := 100 }

/-- C5 counterexample: completing a pending sale with paid_amount = 200
against a request-supplied total of 50 persists exactly the sale built by
completePendingSaleFields, which has
amount_paid + credit_amount = 200 + 0 ≠ 50 = total_amount and
total_amount = 50 ≠ (subtotal − discount) · 1.13 = 113 — the completion
takes the total from the request and caps credit at 0 on overpayment. -/
theorem sale_money_invariants_cex :
    (complete_sale moneyDb posUser 1 moneyReq).2.sales =
      [{ completePendingSaleFields moneySale moneyReq 1 with items := [] }] ∧
    (completePendingSaleFields moneySale moneyReq 1).amountPaid +
        (completePendingSaleFields moneySale moneyReq 1).creditAmount ≠
      (completePendingSaleFields moneySale moneyReq 1).totalAmount ∧
    (completePendingSaleFields moneySale moneyReq 1).totalAmount ≠
      ((completePendingSaleFields moneySale moneyReq 1).subtotal -
        (completePendingSaleFields moneySale moneyReq 1).discountAmount) *
        (1 + 13 / 100) := by
  refine ⟨rfl, ?_, ?_⟩
  · norm_num [completePendingSaleFields, moneySale, moneyReq]
  · norm_num [completePendingSaleFields, moneySale, moneyReq]

/-- C5 (amended): pending saves/updates and direct creation compute
total = (subtotal − discount) · (1 + 13 %); completion of a pending sale
takes the total from the request instead. Wherever credit and change are
set, credit = max(0, total − paid) and change = max(0, paid − total), so
amount_paid + credit_amount = total_amount + change_amount always, and
amount_paid + credit_amount = total_amount exactly when paid ≤ total.
Credit payments preserve amount_paid + credit_amount and the total. -/
theorem sale_money_invariants :
    (∀ (sid : Nat) (user : UserCtx) (now : Nat) (req : PendingReq)
        (items : List SaleItemRec),
      (savePendingSaleFields sid user now req items).totalAmount =
        ((savePendingSaleFields sid user now req items).subtotal -
          (savePendingSaleFields sid user now req items).discountAmount) *
          (1 + 13 / 100) ∧
      (savePendingSaleFields sid user now req items).amountPaid = 0 ∧
      (savePendingSaleFields sid user now req items).creditAmount =
        (savePendingSaleFields sid user now req items).totalAmount) ∧
    (∀ (sale : SaleRec) (req : PendingReq) (items : List SaleItemRec),
      (updatePendingFields sale req items).totalAmount =
        ((updatePendingFields sale req items).subtotal -
          (updatePendingFields sale req items).discountAmount) * (1 + 13 / 100) ∧
      (updatePendingFields sale req items).creditAmount =
        (updatePendingFields sale req items).totalAmount) ∧
    (∀ (sid : Nat) (user : UserCtx) (now : Nat) (req : CompleteReq)
        (items : List SaleItemRec),
      (directSaleFields sid user now req items).totalAmount =
        ((directSaleFields sid user now req items).subtotal -
          (directSaleFields sid user now req items).discountAmount) *
          (1 + 13 / 100) ∧
      (directSaleFields sid user now req items).creditAmount =
        max 0 ((directSaleFields sid user now req items).totalAmount -
          (directSaleFields sid user now req items).amountPaid) ∧
      (directSaleFields sid user now req items).amountPaid +
          (directSaleFields sid user now req items).creditAmount =
        (directSaleFields sid user now req items).totalAmount +
          (directSaleFields sid user now req items).changeAmount ∧
      ((directSaleFields sid user now req items).amountPaid ≤
          (directSaleFields sid user now req items).totalAmount →
        (directSaleFields sid user now req items).amountPaid +
            (directSaleFields sid user now req items).creditAmount =
          (directSaleFields sid user now req items).totalAmount)) ∧
    (∀ (sale : SaleRec) (req : CompleteReq) (now : Nat),
      (completePendingSaleFields sale req now).creditAmount =
        max 0 ((completePendingSaleFields sale req now).totalAmount -
          (completePendingSaleFields sale req now).amountPaid) ∧
      (completePendingSaleFields sale req now).amountPaid +
          (completePendingSaleFields sale req now).creditAmount =
        (completePendingSaleFields sale req now).totalAmount +
          (completePendingSaleFields sale req now).changeAmount ∧
      ((completePendingSaleFields sale req now).amountPaid ≤
          (completePendingSaleFields sale req now).totalAmount →
        (completePendingSaleFields sale req now).amountPaid +
            (completePendingSaleFields sale req now).creditAmount =
          (completePendingSaleFields sale req now).totalAmount)) ∧
    (∀ (sale : SaleRec) (amount : Rat),
      (creditPaymentFields sale amount).amountPaid +
          (creditPaymentFields sale amount).creditAmount =
        sale.amountPaid + sale.creditAmount ∧
      (creditPaymentFields sale amount).totalAmount = sale.totalAmount) := by
  have hmax : ∀ (t p : Rat), p + max 0 (t - p) = t + max 0 (p - t) := by
    intro t p
    rcases le_total p t with h | h
    · rw [max_eq_right (by linarith), max_eq_left (by linarith)]
      ring
    · rw [max_eq_left (by linarith), max_eq_right (by linarith)]
      ring
  have hmaxle : ∀ (t p : Rat), p ≤ t → p + max 0 (t - p) = t := by
    intro t p h
    rw [max_eq_right (by linarith)]
    ring
  refine ⟨?_, ?_, ?_, ?_, ?_⟩
  · intro sid user now req items
    refine ⟨?_, rfl, rfl⟩
    simp only [savePendingSaleFields, pendingAmounts]
    ring
  · intro sale req items
    refine ⟨?_, rfl⟩
    simp only [updatePendingFields, pendingAmounts]
    ring
  · intro sid user now req items
    refine ⟨?_, rfl, ?_, ?_⟩
    · simp only [directSaleFields, pendingAmounts]
      ring
    · simp only [directSaleFields, pendingAmounts]
      exact hmax _ _
    · intro h
      simp only [directSaleFields, pendingAmounts] at h ⊢
      exact hmaxle _ _ h
  · intro sale req now
    refine ⟨rfl, ?_, ?_⟩
    · simp only [completePendingSaleFields]
      exact hmax _ _
    · intro h
      simp only [completePendingSaleFields] at h ⊢
      exact hmaxle _ _ h
  · intro sale amount
    refine ⟨?_, rfl⟩
    simp only [creditPaymentFields]
    ring

/-- C5 witness: the specification scenario — subtotal 1000, discount 100,
paid 500 — yields total 1017 and credit 517 with
amount_paid + credit_amount = total_amount. -/
theorem sale_money_invariants_witness :
    (directSaleFields 1 posUser 1
        { saleId := none, patientName := none, patientAge := none,
          patientPhone := none, patientGender := none, subtotal := some 1000,
          taxAmount := none, discountAmount := some 100, total := none,
          paidAmount := 500, paymentMethod := none, transactionId := none,
          branchId := some 2, items := none, splitPayments := [] }
        []).totalAmount = 1017 ∧
    (directSaleFields 1 posUser 1
        { saleId := none, patientName := none, patientAge := none,
          patientPhone := none, patientGender := none, subtotal := some 1000,
          taxAmount := none, discountAmount := some 100, total := none,
          paidAmount := 500, paymentMethod := none, transactionId := none,
          branchId := some 2, items := none, splitPayments := [] }
        []).creditAmount = 517 ∧
    (directSaleFields 1 posUser 1
        { saleId := none, patientName := none, patientAge := none,
          patientPhone := none, patientGender := none, subtotal := some 1000,
          taxAmount := none, discountAmount := some 100, total := none,
          paidAmount := 500, paymentMethod := none, transactionId := none,
          branchId := some 2, items := none, splitPayments := [] }
        []).amountPaid +
      (directSaleFields 1 posUser 1
        { saleId := none, patientName := none, patientAge := none,
          patientPhone := none, patientGender := none, subtotal := some 1000,
          taxAmount := none, discountAmount := some 100, total := none,
          paidAmount := 500, paymentMethod := none, transactionId := none,
          branchId := some 2, items := none, splitPayments := [] }
        []).creditAmount =
      (directSaleFields 1 posUser 1
        { saleId := none, patientName := none, patientAge := none,
          patientPhone := none, patientGender := none, subtotal := some 1000,
          taxAmount := none, discountAmount := some 100, total := none,
          paidAmount := 500, paymentMethod := none, transactionId := none,
          branchId := some 2, items := none, splitPayments := [] }
        []).totalAmount := by
  have htot : (directSaleFields 1 posUser 1
      { saleId := none, patientName := none, patientAge := none,
        patientPhone := none, patientGender := none, subtotal := some 1000,
        taxAmount := none, discountAmount := some 100, total := none,
        paidAmount := 500, paymentMethod := none, transactionId := none,
        branchId := some 2, items := none, splitPayments := [] }
      []).totalAmount = 1017 := by
    norm_num [directSaleFields, pendingAmounts]
  have hcred : (directSaleFields 1 posUser 1
      { saleId := none, patientName := none, patientAge := none,
        patientPhone := none, patientGender := none, subtotal := some 1000,
        taxAmount := none, discountAmount := some 100, total := none,
        paidAmount := 500, paymentMethod := none, transactionId := none,
        branchId := some 2, items := none, splitPayments := [] }
      []).creditAmount = 517 := by
    norm_num [directSaleFields, pendingAmounts]
  have hpaid : (directSaleFields 1 posUser 1
      { saleId := none, patientName := none, patientAge := none,
        patientPhone := none, patientGender := none, subtotal := some 1000,
        taxAmount := none, discountAmount := some 100, total := none,
        paidAmount := 500, paymentMethod := none, transactionId := none,
        branchId := some 2, items := none, splitPayments := [] }
      []).amountPaid = 500 := rfl
  have hsum := ((sale_money_invariants).2.2.1 1 posUser 1
    { saleId := none, patientName := none, patientAge := none,
      patientPhone := none, patientGender := none, subtotal := some 1000,
      taxAmount := none, discountAmount := some 100, total := none,
      paidAmount := 500, paymentMethod := none, transactionId := none,
      branchId := some 2, items := none, splitPayments := [] }
    []).2.2.2 (by rw [hpaid, htot]; norm_num)
  exact ⟨htot, hcred, hsum⟩

/-! Claim C8: pending bills never touch stock or payments. -/

/-- C8: saving a pending bill, and updating one, leave every inventory
batch row and every payment row exactly as they were; on success the
persisted sale is pending with the snapshot items, amount_paid stays 0 for
a saved bill and is untouched by an update. -/
theorem pending_bill_no_stock_effect (db : DB) (user : UserCtx) (now : Nat)
    (req : PendingReq) (sid : Nat) :
    ((save_pending_bill db user now req).2.batches = db.batches ∧
     (save_pending_bill db user now req).2.payments = db.payments ∧
     (∀ items, mkSaleItems db.products req.items = .ok items →
       (save_pending_bill db user now req).2.sales =
         db.sales ++ [savePendingSaleFields db.nextSaleId user now req items] ∧
       (savePendingSaleFields db.nextSaleId user now req items).status =
         SaleStatus.pending ∧
       (savePendingSaleFields db.nextSaleId user now req items).amountPaid = 0 ∧
       (savePendingSaleFields db.nextSaleId user now req items).items = items)) ∧
    ((update_pending_bill db user sid req).2.batches = db.batches ∧
     (update_pending_bill db user sid req).2.payments = db.payments ∧
     (∀ sale items,
       db.sales.find? (pendingPred sid user.organizationId) = some sale →
       mkSaleItems db.products req.items = .ok items →
       (update_pending_bill db user sid req).2.sales =
         db.sales.map
           (fun s => if s.id = sale.id then updatePendingFields sale req items else s) ∧
       (updatePendingFields sale req items).status = SaleStatus.pending ∧
       (updatePendingFields sale req items).amountPaid = sale.amountPaid ∧
       (updatePendingFields sale req items).items = items)) := by
  constructor
  · refine ⟨?_, ?_, ?_⟩
    · rw [save_pending_bill]
      cases h : mkSaleItems db.products req.items <;> rfl
    · rw [save_pending_bill]
      cases h : mkSaleItems db.products req.items <;> rfl
    · intro items h
      rw [save_pending_bill, h]
      exact ⟨rfl, rfl, rfl, rfl⟩
  · refine ⟨?_, ?_, ?_⟩
    · rw [update_pending_bill]
      cases h : db.sales.find? (pendingPred sid user.organizationId)
      · rfl
      · cases h2 : mkSaleItems db.products req.items <;> rfl
    · rw [update_pending_bill]
      cases h : db.sales.find? (pendingPred sid user.organizationId)
      · rfl
      · cases h2 : mkSaleItems db.products req.items <;> rfl
    · intro sale items hfind hitems
      have hstatus : sale.status = SaleStatus.pending := by
        have hp := List.find?_some hfind
        simp only [pendingPred, Bool.and_eq_true, decide_eq_true_eq] at hp
        exact hp.1.2
      rw [update_pending_bill, hfind, hitems]
      exact ⟨rfl, by simp [updatePendingFields, hstatus], rfl, rfl⟩

/-- Pending-bill request used by the C8 witness. -/
def pendingReqW : PendingReq :=
  { patientName := "Jane Roe", patientPhone := "", patientAge := none,
    patientGender := none, branchId := some 2, subtotal := 100,
    discountAmount := 0, paymentMethod := none,
    items := [{ medicineId := 7, quantity := 2, price := 12, batch := "A",
                batchInfo := [{ inventoryItemId := 51, batchNumber := "A",
                                allocatedQuantity := 2 }] }] }

/-- C8 witness: saving a pending bill against the two-batch store, then
updating the stored pending sale, keeps batches and payments untouched and
persists pending items matching the request snapshot. -/
theorem pending_bill_no_stock_effect_witness :
    (save_pending_bill atomDb posUser 1 pendingReqW).2.batches = atomDb.batches ∧
    (save_pending_bill atomDb posUser 1 pendingReqW).2.payments = atomDb.payments ∧
    (save_pending_bill atomDb posUser 1 pendingReqW).2.sales =
      atomDb.sales ++ [savePendingSaleFields atomDb.nextSaleId posUser 1 pendingReqW
        [{ productId := 7, quantity := 2, unitPrice := 12, batchNumber := "A",
           allocatedBatches := [{ inventoryItemId := 51, batchNumber := "A",
                                  allocatedQuantity := 2 }] }]] ∧
    (update_pending_bill atomDb posUser 9 pendingReqW).2.batches = atomDb.batches := by
  have h := pending_bill_no_stock_effect atomDb posUser 1 pendingReqW 9
  refine ⟨h.1.1, h.1.2.1, ?_, h.2.1⟩
  exact (h.1.2.2 _ rfl).1

/-! Claim C9: idempotence of update_pending_bill. -/

theorem updatePendingFields_idem (sale : SaleRec) (req : PendingReq)
    (items : List SaleItemRec) :
    updatePendingFields (updatePendingFields sale req items) req items =
      updatePendingFields sale req items := by
  unfold updatePendingFields
  cases hag : req.patientAge <;> cases hg : req.patientGender <;>
    cases hm : req.paymentMethod <;>
    by_cases h1 : req.patientName = "" <;> by_cases h2 : req.patientPhone = "" <;>
    simp [h1, h2]

theorem updatePendingFields_id (sale : SaleRec) (req : PendingReq)
    (items : List SaleItemRec) :
    (updatePendingFields sale req items).id = sale.id := rfl

theorem find?_pendingPred_map (sales : List SaleRec) (sid org : Nat)
    (sale sale' : SaleRec)
    (hfind : sales.find? (pendingPred sid org) = some sale)
    (hpred : pendingPred sid org sale' = true) (hid : sale'.id = sale.id) :
    (sales.map (fun t => if t.id = sale.id then sale' else t)).find?
      (pendingPred sid org) = some sale' := by
  induction sales with
  | nil => simp at hfind
  | cons t rest ih =>
    by_cases hp : pendingPred sid org t = true
    · rw [List.find?_cons_of_pos _ hp] at hfind
      have ht : t = sale := by
        injection hfind
      subst ht
      simp only [List.map_cons, if_pos rfl]
      exact List.find?_cons_of_pos _ hpred
    · rw [List.find?_cons_of_neg _ hp] at hfind
      simp only [List.map_cons]
      by_cases hid2 : t.id = sale.id
      · rw [if_pos hid2]
        exact List.find?_cons_of_pos _ hpred
      · rw [if_neg hid2]
        rw [List.find?_cons_of_neg _ hp]
        exact ih hfind

theorem map_update_idem (sales : List SaleRec) (sale sale' : SaleRec)
    (hid : sale'.id = sale.id) :
    (sales.map (fun t => if t.id = sale.id then sale' else t)).map
        (fun t => if t.id = sale.id then sale' else t) =
      sales.map (fun t => if t.id = sale.id then sale' else t) := by
  induction sales with
  | nil => rfl
  | cons t rest ih =>
    simp only [List.map_cons]
    rw [ih]
    by_cases h : t.id = sale.id
    · rw [if_pos h, if_pos hid]
    · rw [if_neg h, if_neg h]

/-- C9: applying update_pending_bill twice with the identical payload
produces exactly the state and response of applying it once — the items
are replaced wholesale from the payload, so no duplication and no drift is
possible. -/
theorem update_pending_bill_idempotent (db : DB) (user : UserCtx) (sid : Nat)
    (req : PendingReq) :
    update_pending_bill (update_pending_bill db user sid req).2 user sid req =
      update_pending_bill db user sid req := by
  cases hfind : db.sales.find? (pendingPred sid user.organizationId) with
  | none =>
    have h1 : update_pending_bill db user sid req = (.err, db) := by
      rw [update_pending_bill, hfind]
    rw [h1, h1]
  | some sale =>
    cases hitems : mkSaleItems db.products req.items with
    | error e =>
      have h1 : update_pending_bill db user sid req = (.err, db) := by
        rw [update_pending_bill, hfind, hitems]
      rw [h1, h1]
    | ok items =>
      have hps := List.find?_some hfind
      simp only [pendingPred, Bool.and_eq_true, beq_iff_eq,
        decide_eq_true_eq] at hps
      have hpred' : pendingPred sid user.organizationId
          (updatePendingFields sale req items) = true := by
        simp only [pendingPred, Bool.and_eq_true, beq_iff_eq, decide_eq_true_eq]
        exact ⟨⟨hps.1.1, hps.1.2⟩, hps.2⟩
      have h1 : update_pending_bill db user sid req =
          (.ok (updatePendingFields sale req items).id
            (updatePendingFields sale req items).saleNumber,
           { db with
             sales := db.sales.map fun s =>
               if s.id = sale.id then updatePendingFields sale req items else s }) := by
        rw [update_pending_bill, hfind, hitems]
      rw [h1]
      have hfind2 : (db.sales.map
          (fun s => if s.id = sale.id then updatePendingFields sale req items else s)).find?
            (pendingPred sid user.organizationId) =
          some (updatePendingFields sale req items) :=
        find?_pendingPred_map db.sales sid user.organizationId sale
          (updatePendingFields sale req items) hfind hpred' rfl
      rw [update_pending_bill]
      simp only [hfind2, hitems, updatePendingFields_idem]
      have hideq : (updatePendingFields sale req items).id = sale.id := rfl
      rw [hideq, map_update_idem db.sales sale (updatePendingFields sale req items) rfl]

/-! Bulk-order workflow (inventory/serializers.py). -/

inductive BOStatus where
  | submitted
  | supplier_reviewing
  | supplier_confirmed
  | buyer_reviewing
  | buyer_confirmed
  | shipped
  | delivered
  | released
  | imported
  | completed
  | cancelled
deriving Repr, DecidableEq

/-- BulkOrderStatusLog row: from_status is nullable (the creation log
does not set it). -/
structure BOStatusLog where
  fromStatus : Option BOStatus
  toStatus : BOStatus
  notes : String
  changedBy : Nat
  changedAt : Nat
deriving Repr, DecidableEq

/-- BulkOrderItem row (the fields the supplier confirmation touches). -/
structure BOItem where
  id : Nat
  quantityRequested : Nat
  quantityConfirmed : Option Nat
  unitPrice : Option Rat
  supplierNotes : String
  isAvailable : Bool
deriving Repr, DecidableEq

/-- BulkOrder row. -/
structure BulkOrder where
  id : Nat
  status : BOStatus
  subtotal : Rat
  taxAmount : Rat
  shippingAmount : Rat
  totalAmount : Rat
  advanceAmount : Rat
  buyerNotes : String
  supplierNotes : String
  buyerDeliveryNotes : String
  shippingNotes : String
  shippingMethod : String
  trackingNumber : String
  shippedDate : Option Nat
  expectedDeliveryDate : Option Nat
  items : List BOItem
  statusLogs : List BOStatusLog
deriving Repr, DecidableEq

/-- BulkOrderCreateSerializer.create: a fresh order in submitted state
with one creation log whose from_status is left NULL. Monetary fields
start at the model defaults (0; the models module is not in the sources,
its defaults are modelled from the spec). -/
def bulkOrderCreate (orderId userId now : Nat) (items : List BOItem)
    (expectedDelivery : Option Nat) (buyerNotes : String) : BulkOrder :=
  { id := orderId, status := .submitted, subtotal := 0, taxAmount := 0,
    shippingAmount := 0, totalAmount := 0, advanceAmount := 0,
    buyerNotes := buyerNotes, supplierNotes := "", buyerDeliveryNotes := "",
    shippingNotes := "", shippingMethod := "", trackingNumber := "",
    shippedDate := none, expectedDeliveryDate := expectedDelivery,
    items := items,
    statusLogs := [{ fromStatus := none, toStatus := .submitted,
                     notes := "Order submitted to supplier",
                     changedBy := userId, changedAt := now }] }

/-- One entry of the items list sent with the supplier confirmation. -/
structure BOItemUpdateReq where
  id : Option Nat
  quantityConfirmed : Option Nat
  unitPrice : Option Rat
  supplierNotes : Option String
  isAvailable : Option Bool
deriving Repr, DecidableEq

/-- Per-item field update of the supplier confirmation. -/
def updateBOItem (it : BOItem) (r : BOItemUpdateReq) : BOItem :=
  { it with
    quantityConfirmed :=
      match r.quantityConfirmed with
      | none => it.quantityConfirmed
      | some v => some v,
    unitPrice :=
      match r.unitPrice with
      | none => it.unitPrice
      | some v => some v,
    supplierNotes := r.supplierNotes.getD it.supplierNotes,
    isAvailable := r.isAvailable.getD it.isAvailable }

/-- Item loop of the supplier confirmation: entries without id are
skipped, a missing row raises, and the running total accumulates
unit_price · quantity_confirmed for rows where both are truthy. -/
def supplierUpdateItems (items : List BOItem) (total : Rat) :
    List BOItemUpdateReq → Except Unit (List BOItem × Rat)
  | [] => .ok (items, total)
  | r :: rest =>
    match r.id with
    | none => supplierUpdateItems items total rest
    | some i =>
      match items.find? (fun it => it.id == i) with
      | none => .error ()
      | some it =>
        let it' := updateBOItem it r
        let add :=
          match it'.unitPrice, it'.quantityConfirmed with
          | some p, some q => if p ≠ 0 ∧ q ≠ 0 then p * (q : Rat) else 0
          | _, _ => 0
        supplierUpdateItems (items.map (fun t => if t.id = i then it' else t))
          (total + add) rest

/-- BulkOrderSupplierUpdateSerializer.update, wrapped in its view guard.
Modelled from the spec: the guard (only legal while status is submitted or
supplier_reviewing) lives in the calling view, which is not in the
sources. The appended log hardcodes from_status = supplier_reviewing. -/
def bulkOrderSupplierUpdate (order : BulkOrder) (supplierNotes : Option String)
    (itemReqs : List BOItemUpdateReq) (userId now : Nat) :
    Except Unit BulkOrder :=
  if order.status = .submitted ∨ order.status = .supplier_reviewing then
    match supplierUpdateItems order.items 0 itemReqs with
    | .error _ => .error ()
    | .ok (items', total) =>
      .ok { order with
            supplierNotes := supplierNotes.getD order.supplierNotes,
            status := .supplier_confirmed,
            items := items',
            subtotal := total,
            totalAmount := total + order.taxAmount + order.shippingAmount,
            statusLogs := order.statusLogs ++
              [{ fromStatus := some .supplier_reviewing,
                 toStatus := .supplier_confirmed,
                 notes := "Supplier confirmed order with pricing",
                 changedBy := userId, changedAt := now }] }
  else .error ()

/-- BulkOrderBuyerUpdateSerializer.update, wrapped in its view guard.
Modelled from the spec: only legal while status = buyer_reviewing. The
appended log hardcodes from_status = buyer_reviewing. -/
def bulkOrderBuyerUpdate (order : BulkOrder) (deliveryNotes : Option String)
    (advance : Option Rat) (userId now : Nat) : Except Unit BulkOrder :=
  if order.status = .buyer_reviewing then
    .ok { order with
          buyerDeliveryNotes := deliveryNotes.getD order.buyerDeliveryNotes,
          advanceAmount := advance.getD order.advanceAmount,
          status := .buyer_confirmed,
          statusLogs := order.statusLogs ++
            [{ fromStatus := some .buyer_reviewing, toStatus := .buyer_confirmed,
               notes := "Buyer confirmed order and delivery details",
               changedBy := userId, changedAt := now }] }
  else .error ()

/-- BulkOrderShippingUpdateSerializer.update, wrapped in its view guard.
Modelled from the spec: only legal after buyer confirmation. The appended
log hardcodes from_status = buyer_confirmed. -/
def bulkOrderShippingUpdate (order : BulkOrder) (method tracking notes : Option String)
    (userId now : Nat) : Except Unit BulkOrder :=
  if order.status = .buyer_confirmed then
    .ok { order with
          shippingMethod := method.getD order.shippingMethod,
          trackingNumber := tracking.getD order.trackingNumber,
          shippingNotes := notes.getD order.shippingNotes,
          status := .shipped,
          shippedDate := some now,
          statusLogs := order.statusLogs ++
            [{ fromStatus := some .buyer_confirmed, toStatus := .shipped,
               notes := "Order shipped via " ++ method.getD order.shippingMethod,
               changedBy := userId, changedAt := now }] }
  else .error ()

/-! Claim C7: status logs of the bulk-order transitions. -/

/-- Freshly submitted bulk order used by the C7 theorems. -/
def c7Order : BulkOrder :=
  { id := 1, status := .submitted, subtotal := 0, taxAmount := 0,
    shippingAmount := 0, totalAmount := 0, advanceAmount := 0, buyerNotes := "",
    supplierNotes := "", buyerDeliveryNotes := "", shippingNotes := "",
    shippingMethod := "", trackingNumber := "", shippedDate := none,
    expectedDeliveryDate := none, items := [],
    statusLogs := [{ fromStatus := none, toStatus := .submitted,
                     notes := "Order submitted to supplier", changedBy := 1,
                     changedAt := 1 }] }

/-- C7 counterexample: a supplier confirmation applied to an order still
in submitted state (legal per the workflow) appends a log whose
from_status is the hardcoded supplier_reviewing, not the actual submitted
state the order was in before the transition. -/
theorem bulk_order_from_status_cex :
    c7Order.status = BOStatus.submitted ∧
    (match bulkOrderSupplierUpdate c7Order none [] 2 5 with
     | .ok o => o.statusLogs.map (fun l => (l.fromStatus, l.toStatus))
     | .error _ => []) =
      [(none, BOStatus.submitted),
       (some BOStatus.supplier_reviewing, BOStatus.supplier_confirmed)] ∧
    some BOStatus.supplier_reviewing ≠ some BOStatus.submitted := by
  refine ⟨rfl, ?_, by decide⟩
  decide

/-- C7 (amended): every transition appends exactly one status log
recording the new status, the acting user, a note and a timestamp, and
order creation, supplier confirmation, buyer confirmation and shipping set
the order status to submitted, supplier_confirmed, buyer_confirmed and
shipped respectively (supplier confirmation also recomputes subtotal and
total = subtotal + tax + shipping). The from_status of the appended log,
however, is a fixed constant per transition — NULL for creation,
supplier_reviewing, buyer_reviewing, buyer_confirmed for the others — and
equals the status before the transition only when the order happened to be
in that state. -/
theorem bulk_order_status_log_append :
    (∀ (orderId userId now : Nat) (items : List BOItem) (ed : Option Nat)
        (bn : String),
      (bulkOrderCreate orderId userId now items ed bn).status = .submitted ∧
      (bulkOrderCreate orderId userId now items ed bn).statusLogs =
        [{ fromStatus := none, toStatus := .submitted,
           notes := "Order submitted to supplier", changedBy := userId,
           changedAt := now }]) ∧
    (∀ (order : BulkOrder) (sn : Option String) (reqs : List BOItemUpdateReq)
        (userId now : Nat) (items' : List BOItem) (total : Rat),
      (order.status = .submitted ∨ order.status = .supplier_reviewing) →
      supplierUpdateItems order.items 0 reqs = .ok (items', total) →
      ∃ o', bulkOrderSupplierUpdate order sn reqs userId now = .ok o' ∧
        o'.status = .supplier_confirmed ∧
        o'.statusLogs = order.statusLogs ++
          [{ fromStatus := some .supplier_reviewing,
             toStatus := .supplier_confirmed,
             notes := "Supplier confirmed order with pricing",
             changedBy := userId, changedAt := now }] ∧
        o'.subtotal = total ∧
        o'.totalAmount = total + order.taxAmount + order.shippingAmount) ∧
    (∀ (order : BulkOrder) (dn : Option String) (adv : Option Rat)
        (userId now : Nat),
      order.status = .buyer_reviewing →
      ∃ o', bulkOrderBuyerUpdate order dn adv userId now = .ok o' ∧
        o'.status = .buyer_confirmed ∧
        o'.statusLogs = order.statusLogs ++
          [{ fromStatus := some .buyer_reviewing, toStatus := .buyer_confirmed,
             notes := "Buyer confirmed order and delivery details",
             changedBy := userId, changedAt := now }]) ∧
    (∀ (order : BulkOrder) (m t n : Option String) (userId now : Nat),
      order.status = .buyer_confirmed →
      ∃ o', bulkOrderShippingUpdate order m t n userId now = .ok o' ∧
        o'.status = .shipped ∧ o'.shippedDate = some now ∧
        o'.statusLogs = order.statusLogs ++
          [{ fromStatus := some .buyer_confirmed, toStatus := .shipped,
             notes := "Order shipped via " ++ m.getD order.shippingMethod,
             changedBy := userId, changedAt := now }]) := by
  refine ⟨?_, ?_, ?_, ?_⟩
  · intro orderId userId now items ed bn
    exact ⟨rfl, rfl⟩
  · intro order sn reqs userId now items' total hguard hitems
    have heq : bulkOrderSupplierUpdate order sn reqs userId now =
        .ok { order with
              supplierNotes := sn.getD order.supplierNotes,
              status := .supplier_confirmed,
              items := items',
              subtotal := total,
              totalAmount := total + order.taxAmount + order.shippingAmount,
              statusLogs := order.statusLogs ++
                [{ fromStatus := some .supplier_reviewing,
                   toStatus := .supplier_confirmed,
                   notes := "Supplier confirmed order with pricing",
                   changedBy := userId, changedAt := now }] } := by
      rw [bulkOrderSupplierUpdate, if_pos hguard, hitems]
    exact ⟨_, heq, rfl, rfl, rfl, rfl⟩
  · intro order dn adv userId now hst
    have heq : bulkOrderBuyerUpdate order dn adv userId now =
        .ok { order with
              buyerDeliveryNotes := dn.getD order.buyerDeliveryNotes,
              advanceAmount := adv.getD order.advanceAmount,
              status := .buyer_confirmed,
              statusLogs := order.statusLogs ++
                [{ fromStatus := some .buyer_reviewing,
                   toStatus := .buyer_confirmed,
                   notes := "Buyer confirmed order and delivery details",
                   changedBy := userId, changedAt := now }] } := by
      rw [bulkOrderBuyerUpdate, if_pos hst]
    exact ⟨_, heq, rfl, rfl⟩
  · intro order m t n userId now hst
    have heq : bulkOrderShippingUpdate order m t n userId now =
        .ok { order with
              shippingMethod := m.getD order.shippingMethod,
              trackingNumber := t.getD order.trackingNumber,
              shippingNotes := n.getD order.shippingNotes,
              status := .shipped,
              shippedDate := some now,
              statusLogs := order.statusLogs ++
                [{ fromStatus := some .buyer_confirmed, toStatus := .shipped,
                   notes := "Order shipped via " ++ m.getD order.shippingMethod,
                   changedBy := userId, changedAt := now }] } := by
      rw [bulkOrderShippingUpdate, if_pos hst]
    exact ⟨_, heq, rfl, rfl, rfl⟩

/-- C7 witness: the four transitions applied to concrete orders each
append their one log and set the advertised status. -/
theorem bulk_order_status_log_append_witness :
    ((bulkOrderCreate 1 1 1 [] none "").status = BOStatus.submitted ∧
     (bulkOrderCreate 1 1 1 [] none "").statusLogs =
       [{ fromStatus := none, toStatus := .submitted,
          notes := "Order submitted to supplier", changedBy := 1,
          changedAt := 1 }]) ∧
    (∃ o', bulkOrderSupplierUpdate c7Order none [] 2 5 = .ok o' ∧
      o'.status = .supplier_confirmed ∧
      o'.statusLogs = c7Order.statusLogs ++
        [{ fromStatus := some .supplier_reviewing,
           toStatus := .supplier_confirmed,
           notes := "Supplier confirmed order with pricing", changedBy := 2,
           changedAt := 5 }] ∧
      o'.subtotal = 0 ∧
      o'.totalAmount = 0 + c7Order.taxAmount + c7Order.shippingAmount) ∧
    (∃ o', bulkOrderBuyerUpdate { c7Order with status := .buyer_reviewing }
        none none 3 6 = .ok o' ∧
      o'.status = .buyer_confirmed ∧
      o'.statusLogs = ({ c7Order with status := .buyer_reviewing } :
          BulkOrder).statusLogs ++
        [{ fromStatus := some .buyer_reviewing, toStatus := .buyer_confirmed,
           notes := "Buyer confirmed order and delivery details",
           changedBy := 3, changedAt := 6 }]) ∧
    (∃ o', bulkOrderShippingUpdate { c7Order with status := .buyer_confirmed }
        (some "air") none none 4 7 = .ok o' ∧
      o'.status = .shipped ∧ o'.shippedDate = some 7 ∧
      o'.statusLogs = ({ c7Order with status := .buyer_confirmed } :
          BulkOrder).statusLogs ++
        [{ fromStatus := some .buyer_confirmed, toStatus := .shipped,
           notes := "Order shipped via " ++
             (some "air").getD ({ c7Order with status := .buyer_confirmed } :
               BulkOrder).shippingMethod,
           changedBy := 4, changedAt := 7 }]) := by
  refine ⟨?_, ?_, ?_, ?_⟩
  · exact (bulk_order_status_log_append).1 1 1 1 [] none ""
  · exact (bulk_order_status_log_append).2.1 c7Order none [] 2 5 [] 0
      (Or.inl rfl) rfl
  · exact (bulk_order_status_log_append).2.2.1
      { c7Order with status := .buyer_reviewing } none none 3 6 rfl
  · exact (bulk_order_status_log_append).2.2.2
      { c7Order with status := .buyer_confirmed } (some "air") none none 4 7 rfl

end Pharma
